import Mathlib

/-!
The godex DynamicQuery: shallow embedding and verified properties.

Embedding of `iterators/dynamic_query.h` and `iterators/dynamic_query.cpp`.

Conventions of the embedding

* A `LocalVector<T>` is a `List T`.
* A group keeps pointers to elements of the query's `elements` vector; a pointer
  is modelled by the index of the element it points to, and the group-level
  functions work on the list of dereferenced member elements. The index stands
  for the address `&elements[i]` as long as no element is appended after the
  group was created: `push_back` may move the vector and leave the group with
  the old address. The property about the group membership of the elements
  after the build calls is stated for call sequences that append no element
  while a group exists.
* The source gives `storage` no initial value: it is assigned by
  `initiate_process` and `conclude_process` of the element, which only the
  groups call. The `none` that a new element carries here stands for that
  unassigned value; the properties that run `fetch` over all elements are
  stated for queries in which every element is a member of a group.
* `uint32_t` counts are natural numbers; the value `UINT32_MAX` is the sentinel
  count of the source.
* The collaborators that are declared outside the two files (storage, entity
  list, world, component registry, component accessor) are modelled from the
  specification of their interface.
-/

namespace godex

/-! ## Basic types -/

abbrev EntityID := Nat

abbrev component_id := Nat

/-- Interned name of a component; two names are equal iff their numbers are. -/
abbrev StringName := Nat

/-- The sentinel count of an unbounded entities buffer. -/
def UINT32_MAX : Nat := 4294967295

inductive SelectOperator where
  | WITH
  | WITHOUT
  | MAYBE
  | CHANGED
deriving DecidableEq, Repr

inductive DynamicQueryElementContainer where
  | WITH_CONTAINER
  | ANY_CONTAINER
  | JOIN_CONTAINER
deriving DecidableEq, Repr

inductive Space where
  | LOCAL
  | GLOBAL
deriving DecidableEq, Repr

/-- Modelled from the spec: EntityBuffer, a view over a sequence of entity
identifiers plus a count (the type `EntitiesBuffer` is declared outside the two
source files). The null pointer is the empty list. -/
structure EntitiesBuffer where
  count : Nat
  entities : List EntityID
deriving DecidableEq, Repr

/-- The buffer `EntitiesBuffer(UINT32_MAX, nullptr)`. -/
def EntitiesBuffer.unbounded : EntitiesBuffer := ⟨UINT32_MAX, []⟩

/-- Modelled from the spec: ChangeSet / entity set (the type `EntityList` is
declared outside the two source files): a deduplicated sequence of entity
identifiers with insertion, membership test, size, clear and a freeze flag. -/
structure EntityList where
  dense : List EntityID
  frozen : Bool
deriving DecidableEq, Repr

def EntityList.empty : EntityList := ⟨[], false⟩

def EntityList.has (l : EntityList) (p_entity : EntityID) : Bool :=
  decide (p_entity ∈ l.dense)

def EntityList.insert (l : EntityList) (p_entity : EntityID) : EntityList :=
  if l.has p_entity then l else { l with dense := l.dense ++ [p_entity] }

def EntityList.size (l : EntityList) : Nat := l.dense.length

def EntityList.get_entities_ptr (l : EntityList) : List EntityID := l.dense

def EntityList.clear (l : EntityList) : EntityList := { l with dense := [] }

def EntityList.freeze (l : EntityList) : EntityList := { l with frozen := true }

def EntityList.unfreeze (l : EntityList) : EntityList := { l with frozen := false }

/-- Modelled from the spec: Storage, the collaborator holding all instances of
one component type keyed by entity (the type `StorageBase` is declared outside
the two source files). `has` tells whether the entity is stored and
`get_stored_entities` lists all stored entities. -/
structure StorageBase where
  stored : List EntityID
deriving DecidableEq, Repr

def StorageBase.has (s : StorageBase) (p_entity : EntityID) : Bool :=
  decide (p_entity ∈ s.stored)

def StorageBase.get_stored_entities (s : StorageBase) : EntitiesBuffer :=
  ⟨s.stored.length, s.stored⟩

/-- Modelled from the spec: the raw storage slot of a component of an entity in
a space, as returned by `get_ptr` (declared outside the two source files). -/
structure ComponentSlot where
  entity : EntityID
  space : Space
deriving DecidableEq, Repr

def StorageBase.get_ptr (_s : StorageBase) (p_entity : EntityID) (p_space : Space) :
    ComponentSlot :=
  ⟨p_entity, p_space⟩

/-- Modelled from the spec: World, `getStorage(component_id)` is nullable (the
type `World` is declared outside the two source files). -/
structure World where
  storages : List (component_id × StorageBase)
deriving DecidableEq, Repr

def World.get_storage (w : World) (p_id : component_id) : Option StorageBase :=
  w.storages.lookup p_id

/-- Modelled from the spec: the component registry, `verify(component_id)` and
`name(component_id)` (the class `ECS` is declared outside the two source
files). -/
structure ECS where
  verify_component_id : component_id → Bool
  get_component_name : component_id → StringName

/-- Modelled from the spec: the component accessor (the class
`ComponentDynamicExposer` is declared outside the two source files): it carries
the component, its own mutability flag and the slot it points at, `none` being
the "no value" state. -/
structure ComponentDynamicExposer where
  component : component_id
  mutability : Bool
  target : Option ComponentSlot
deriving DecidableEq, Repr

def ComponentDynamicExposer.default : ComponentDynamicExposer := ⟨0, false, none⟩

def ComponentDynamicExposer.init (a : ComponentDynamicExposer) (p_id : component_id)
    (p_mutable : Bool) : ComponentDynamicExposer :=
  { a with component := p_id, mutability := p_mutable }

def ComponentDynamicExposer.is_mutable (a : ComponentDynamicExposer) : Bool := a.mutability

def ComponentDynamicExposer.set_target (a : ComponentDynamicExposer)
    (p_target : Option ComponentSlot) : ComponentDynamicExposer :=
  { a with target := p_target }

/-! ## DynamicQuerySelectElement -/

/-- One component selector. `storage` is the borrowed storage pointer (`none` is
`nullptr`, and also the value of an element whose `storage` has not been
assigned yet: the header has no initialiser for it); `listening` records that
`changed` has been registered as a change listener of the component's storage
by `prepare_world`. -/
structure DynamicQuerySelectElement where
  id : component_id
  name : StringName
  storage : Option StorageBase
  mutability : Bool
  fetch_enabled : Bool
  changed : EntityList
  opers : List SelectOperator
  container : DynamicQueryElementContainer
  listening : Bool
deriving DecidableEq, Repr

namespace DynamicQuerySelectElement

/-- Source lines 13-24: switch on the last operator of the chain. -/
def is_filter_determinant (el : DynamicQuerySelectElement) : Bool :=
  match el.opers.getLast? with
  | some SelectOperator.WITH => true
  | some SelectOperator.CHANGED => true
  | _ => false

/-- Source lines 30-60. The signed index `p_oper_idx` of the source is shifted
by one: the argument `k` stands for `p_oper_idx = k - 1`, so `0` is the case
`p_oper_idx < 0`. Reading the chain out of range aborts in the source; it does
not happen for `k ≤ opers.size()`. -/
def _filter_satisfied_with_oper (el : DynamicQuerySelectElement) (p_entity : EntityID) :
    Nat → Bool
  | 0 => true
  | k + 1 =>
    match el.opers[k]? with
    | some SelectOperator.WITH =>
      match el.storage with
      | none => false
      | some s => s.has p_entity
    | some SelectOperator.WITHOUT =>
      match el.storage with
      | none => false
      | some _ => _filter_satisfied_with_oper el p_entity k == false
    | some SelectOperator.CHANGED =>
      match el.storage with
      | none => false
      | some _ => el.changed.has p_entity
    | some SelectOperator.MAYBE => true
    | none => true

/-- Source lines 26-28: evaluation starts at the last operator. The chain is
never empty in the source (an element is created with `WITH`). -/
def filter_satisfied (el : DynamicQuerySelectElement) (p_entity : EntityID) : Bool :=
  el._filter_satisfied_with_oper p_entity el.opers.length

/-- Source lines 62-86, called with the index of the last operator. -/
def get_entities (el : DynamicQuerySelectElement) : EntitiesBuffer :=
  match el.storage with
  | none => EntitiesBuffer.unbounded
  | some s =>
    match el.opers.getLast? with
    | some SelectOperator.WITH => s.get_stored_entities
    | some SelectOperator.WITHOUT => EntitiesBuffer.unbounded
    | some SelectOperator.CHANGED => ⟨el.changed.size, el.changed.get_entities_ptr⟩
    | some SelectOperator.MAYBE => EntitiesBuffer.unbounded
    | none => EntitiesBuffer.unbounded

/-- Source lines 88-92: register the change listener when the chain contains
`CHANGED`. -/
def prepare_world (el : DynamicQuerySelectElement) (_w : World) : DynamicQuerySelectElement :=
  if SelectOperator.CHANGED ∈ el.opers then { el with listening := true } else el

/-- Source lines 93-96. -/
def initiate_process (el : DynamicQuerySelectElement) (w : World) : DynamicQuerySelectElement :=
  { el with changed := el.changed.freeze, storage := w.get_storage el.id }

/-- Source lines 97-101. -/
def conclude_process (el : DynamicQuerySelectElement) : DynamicQuerySelectElement :=
  { el with storage := none, changed := el.changed.unfreeze.clear }

def can_fetch (el : DynamicQuerySelectElement) : Bool := el.fetch_enabled

/-- Source lines 103-124. -/
def fetch (el : DynamicQuerySelectElement) (p_entity : EntityID) (p_space : Space)
    (p_accessor : ComponentDynamicExposer) : ComponentDynamicExposer :=
  match el.can_fetch, el.storage with
  | true, some s =>
    if s.has p_entity then
      if p_accessor.is_mutable then
        p_accessor.set_target (some (s.get_ptr p_entity p_space))
      else
        p_accessor.set_target (some (s.get_ptr p_entity p_space))
    else
      p_accessor.set_target none
  | _, _ => p_accessor.set_target none

end DynamicQuerySelectElement

/-! ## DynamicQuerySelect and its two variants

The functions of this section take the dereferenced list `select_elements` of
member elements. -/

namespace DynamicQuerySelect

/-- Header lines 82-89. -/
def all_determinant : List DynamicQuerySelectElement → Bool
  | [] => true
  | m :: ms => if !m.is_filter_determinant then false else all_determinant ms

/-- Header lines 91-98. -/
def any_determinant : List DynamicQuerySelectElement → Bool
  | [] => false
  | m :: ms => if m.is_filter_determinant then true else any_determinant ms

end DynamicQuerySelect

namespace DynamicQuerySelectWith

/-- The loop of source lines 129-136, `e` being the buffer kept so far. -/
def get_entities_loop : List DynamicQuerySelectElement → EntitiesBuffer → EntitiesBuffer
  | [], e => e
  | m :: ms, e =>
    if m.is_filter_determinant then
      if m.get_entities.count < e.count then
        get_entities_loop ms m.get_entities
      else
        get_entities_loop ms e
    else
      get_entities_loop ms e

/-- Source lines 127-139. -/
def get_entities (select_elements : List DynamicQuerySelectElement) : EntitiesBuffer :=
  get_entities_loop select_elements EntitiesBuffer.unbounded

/-- Source lines 141-148. -/
def filter_satisfied (p_entity : EntityID) : List DynamicQuerySelectElement → Bool
  | [] => true
  | m :: ms => if !m.filter_satisfied p_entity then false else filter_satisfied p_entity ms

end DynamicQuerySelectWith

namespace DynamicQuerySelectAny

/-- The inner loop of source lines 157-159: insert the first `eb.count` entries
of the buffer. -/
def insert_buffer (entities : EntityList) (eb : EntitiesBuffer) : EntityList :=
  (eb.entities.take eb.count).foldl EntityList.insert entities

/-- The outer loop of source lines 154-161. -/
def get_entities_loop : List DynamicQuerySelectElement → EntityList → EntityList
  | [], entities => entities
  | m :: ms, entities =>
    if m.get_entities.count != UINT32_MAX then
      get_entities_loop ms (insert_buffer entities m.get_entities)
    else
      get_entities_loop ms entities

/-- Source lines 150-166: returns the updated member `entities` and the
buffer. -/
def get_entities (select_elements : List DynamicQuerySelectElement) (entities : EntityList) :
    EntityList × EntitiesBuffer :=
  let entities := entities.clear
  if DynamicQuerySelect.any_determinant select_elements then
    let entities := get_entities_loop select_elements entities
    (entities, ⟨entities.size, entities.get_entities_ptr⟩)
  else
    (entities, EntitiesBuffer.unbounded)

/-- The loop of source lines 172-177. -/
def filter_satisfied_loop (p_entity : EntityID) : List DynamicQuerySelectElement → Bool
  | [] => false
  | m :: ms => if m.filter_satisfied p_entity then true else filter_satisfied_loop p_entity ms

/-- Source lines 168-179. -/
def filter_satisfied (select_elements : List DynamicQuerySelectElement) (entities : EntityList)
    (p_entity : EntityID) : Bool :=
  if DynamicQuerySelect.all_determinant select_elements then
    entities.has p_entity
  else
    filter_satisfied_loop p_entity select_elements

end DynamicQuerySelectAny

/-- A select group: the conjunctive group (`DynamicQuerySelectWith`) or the
disjunctive group (`DynamicQuerySelectAny`, which owns the entity set
`entities`). `select_elements` holds the indices, in the query's `elements`, of
the elements the group points to. -/
inductive DynamicQuerySelect where
  | select_with (select_elements : List Nat)
  | select_any (select_elements : List Nat) (entities : EntityList)
deriving DecidableEq, Repr

/-- Dereference the element pointers of a group. The group of the source holds
the addresses `&elements[i]` (source lines 249 and 387); the index `i` names the
same element as long as `elements` has not grown since the address was taken. -/
def select_members (elements : List DynamicQuerySelectElement) (select_elements : List Nat) :
    List DynamicQuerySelectElement :=
  select_elements.filterMap (fun i => elements[i]?)

namespace DynamicQuerySelect

def select_elements : DynamicQuerySelect → List Nat
  | select_with idxs => idxs
  | select_any idxs _ => idxs

/-- The loop of header lines 71-75, run on the query's element vector. -/
def initiate_members (w : World) : List Nat → List DynamicQuerySelectElement →
    List DynamicQuerySelectElement
  | [], elements => elements
  | i :: rest, elements =>
    initiate_members w rest (elements.modify (fun el => el.initiate_process w) i)

/-- Header lines 71-75. -/
def initiate_process (g : DynamicQuerySelect) (w : World)
    (elements : List DynamicQuerySelectElement) : List DynamicQuerySelectElement :=
  initiate_members w g.select_elements elements

/-- The loop of header lines 76-80, run on the query's element vector. -/
def conclude_members : List Nat → List DynamicQuerySelectElement →
    List DynamicQuerySelectElement
  | [], elements => elements
  | i :: rest, elements =>
    conclude_members rest (elements.modify (fun el => el.conclude_process) i)

/-- Header lines 76-80. -/
def conclude_process (g : DynamicQuerySelect) (elements : List DynamicQuerySelectElement) :
    List DynamicQuerySelectElement :=
  conclude_members g.select_elements elements

/-- The virtual `get_entities`: the group after the call and the buffer. -/
def get_entities (g : DynamicQuerySelect) (elements : List DynamicQuerySelectElement) :
    DynamicQuerySelect × EntitiesBuffer :=
  match g with
  | select_with idxs =>
    (select_with idxs, DynamicQuerySelectWith.get_entities (select_members elements idxs))
  | select_any idxs entities =>
    (select_any idxs
        (DynamicQuerySelectAny.get_entities (select_members elements idxs) entities).1,
      (DynamicQuerySelectAny.get_entities (select_members elements idxs) entities).2)

/-- The virtual `filter_satisfied`. -/
def filter_satisfied (g : DynamicQuerySelect) (elements : List DynamicQuerySelectElement)
    (p_entity : EntityID) : Bool :=
  match g with
  | select_with idxs =>
    DynamicQuerySelectWith.filter_satisfied p_entity (select_members elements idxs)
  | select_any idxs entities =>
    DynamicQuerySelectAny.filter_satisfied (select_members elements idxs) entities p_entity

end DynamicQuerySelect

/-! ## DynamicQuery -/

/-- Modelled from the spec: the access report consumed by the scheduler
(`SystemExeInfo` is declared outside the two source files): two sets of
component ids. -/
structure SystemExeInfo where
  mutable_components : List component_id
  immutable_components : List component_id
deriving DecidableEq, Repr

/-- Set insertion into a component set. -/
def set_insert (s : List component_id) (p_id : component_id) : List component_id :=
  if p_id ∈ s then s else s ++ [p_id]

/-- The fields of the class (header lines 129-139). `current_entity = none` is
the default-constructed `EntityID()`. -/
structure DynamicQuery where
  valid : Bool
  can_change : Bool
  space : Space
  elements : List DynamicQuerySelectElement
  accessors : List ComponentDynamicExposer
  selects : List DynamicQuerySelect
  world : Option World
  iterator_index : Nat
  current_entity : Option EntityID
  entities : EntitiesBuffer
deriving DecidableEq, Repr

namespace DynamicQuery

/-- A freshly constructed query (the field initialisers of the header). -/
def fresh : DynamicQuery :=
  { valid := true, can_change := true, space := Space.LOCAL, elements := [], accessors := [],
    selects := [], world := none, iterator_index := 0, current_entity := none,
    entities := ⟨0, []⟩ }

def is_valid (q : DynamicQuery) : Bool := q.valid

def set_space (q : DynamicQuery) (p_space : Space) : DynamicQuery := { q with space := p_space }

/-- The loop of source lines 546-550, `i` being the index of the head. -/
def find_element_by_name_loop (p_name : StringName) :
    List DynamicQuerySelectElement → Nat → Option Nat
  | [], _ => none
  | el :: rest, i => if el.name = p_name then some i else find_element_by_name_loop p_name rest (i + 1)

/-- Source lines 545-552; `none` is the result `-1`. -/
def find_element_by_name (q : DynamicQuery) (p_name : StringName) : Option Nat :=
  find_element_by_name_loop p_name q.elements 0

/-- The loop of source lines 555-559, `i` being the index of the head. -/
def find_element_by_component_id_loop (p_component_id : component_id) :
    List DynamicQuerySelectElement → Nat → Option Nat
  | [], _ => none
  | el :: rest, i =>
    if el.id = p_component_id then some i
    else find_element_by_component_id_loop p_component_id rest (i + 1)

/-- Source lines 554-561; `none` is the result `-1`. -/
def find_element_by_component_id (q : DynamicQuery) (p_component_id : component_id) :
    Option Nat :=
  find_element_by_component_id_loop p_component_id q.elements 0

/-- Source lines 278-295. The local `data` is pushed with `storage` unassigned,
which is the `none` here; the `push_back` may move the vector. -/
def _with_component (ecs : ECS) (q : DynamicQuery) (p_component_id : component_id)
    (p_mutable : Bool) : DynamicQuery :=
  if q.is_valid = false then q
  else if q.can_change = false then q
  else if ecs.verify_component_id p_component_id = false then { q with valid := false }
  else if (q.find_element_by_name (ecs.get_component_name p_component_id)).isSome then q
  else
    { q with elements := q.elements ++
        [{ id := p_component_id, name := ecs.get_component_name p_component_id,
           storage := none, mutability := p_mutable, fetch_enabled := true,
           changed := EntityList.empty, opers := [SelectOperator.WITH],
           container := DynamicQueryElementContainer.WITH_CONTAINER, listening := false }] }

/-- Source lines 219-222. -/
def select_component (ecs : ECS) (q : DynamicQuery) (p_component_id : component_id)
    (p_mutable : Bool) : DynamicQuery :=
  q._with_component ecs p_component_id p_mutable

/-- Source lines 255-260. -/
def _insert_element_oper (q : DynamicQuery) (p_component_id : component_id)
    (oper : SelectOperator) : DynamicQuery :=
  match q.find_element_by_component_id p_component_id with
  | none => q
  | some element_idx =>
    { q with elements :=
        q.elements.modify (fun el => { el with opers := el.opers ++ [oper] }) element_idx }

/-- Source lines 224-226. -/
def without (q : DynamicQuery) (p_component_id : component_id) : DynamicQuery :=
  q._insert_element_oper p_component_id SelectOperator.WITHOUT

/-- Source lines 228-230. -/
def maybe (q : DynamicQuery) (p_component_id : component_id) : DynamicQuery :=
  q._insert_element_oper p_component_id SelectOperator.MAYBE

/-- Source lines 232-234. -/
def changed (q : DynamicQuery) (p_component_id : component_id) : DynamicQuery :=
  q._insert_element_oper p_component_id SelectOperator.CHANGED

/-- Source lines 262-264. -/
def with_component (ecs : ECS) (q : DynamicQuery) (p_component_id : component_id)
    (p_mutable : Bool) : DynamicQuery :=
  q.select_component ecs p_component_id p_mutable

/-- Source lines 266-268. -/
def maybe_component (ecs : ECS) (q : DynamicQuery) (p_component_id : component_id)
    (p_mutable : Bool) : DynamicQuery :=
  (q.select_component ecs p_component_id p_mutable).maybe p_component_id

/-- Source lines 270-272. -/
def changed_component (ecs : ECS) (q : DynamicQuery) (p_component_id : component_id)
    (p_mutable : Bool) : DynamicQuery :=
  (q.select_component ecs p_component_id p_mutable).changed p_component_id

/-- Source lines 274-276. -/
def not_component (ecs : ECS) (q : DynamicQuery) (p_component_id : component_id) :
    DynamicQuery :=
  (q.select_component ecs p_component_id false).without p_component_id

/-- The first loop of `any` (source lines 238-243): the element vector after the
loop and whether the loop ran to its end (`false` is the early return of
`ERR_FAIL_COND_MSG`). -/
def any_claim_loop : List component_id → List DynamicQuerySelectElement →
    List DynamicQuerySelectElement × Bool
  | [], elements => (elements, true)
  | p_id :: rest, elements =>
    match find_element_by_component_id_loop p_id elements 0 with
    | none => (elements, false)
    | some element_idx =>
      match elements[element_idx]? with
      | none => (elements, false)
      | some el =>
        if el.container ≠ DynamicQueryElementContainer.WITH_CONTAINER then (elements, false)
        else
          any_claim_loop rest
            (elements.modify
              (fun el => { el with container := DynamicQueryElementContainer.ANY_CONTAINER })
              element_idx)

/-- The second loop of `any` (source lines 247-250): the pointers added to the
new group. -/
def any_collect_loop (elements : List DynamicQuerySelectElement) : List component_id → List Nat
  | [] => []
  | p_id :: rest =>
    match find_element_by_component_id_loop p_id elements 0 with
    | none => any_collect_loop elements rest
    | some element_idx => element_idx :: any_collect_loop elements rest

/-- Source lines 236-253. -/
def any (q : DynamicQuery) (p_component_ids : List component_id) : DynamicQuery :=
  match any_claim_loop p_component_ids q.elements with
  | (elements, false) => { q with elements := elements }
  | (elements, true) =>
    { q with
      elements := elements
      selects := q.selects ++
        [DynamicQuerySelect.select_any (any_collect_loop elements p_component_ids)
          EntityList.empty] }

/-- Source lines 301-311. -/
def reset (q : DynamicQuery) : DynamicQuery :=
  { q with valid := true, can_change := true, elements := [], selects := [], world := none }

/-- Source lines 319-321. -/
def access_count (q : DynamicQuery) : Nat := q.elements.length

/-- The loop of source lines 336-342. -/
def get_system_info_loop : List DynamicQuerySelectElement → SystemExeInfo → SystemExeInfo
  | [], p_info => p_info
  | el :: rest, p_info =>
    if el.mutability then
      get_system_info_loop rest
        { p_info with mutable_components := set_insert p_info.mutable_components el.id }
    else
      get_system_info_loop rest
        { p_info with immutable_components := set_insert p_info.immutable_components el.id }

/-- Source lines 334-343. -/
def get_system_info (q : DynamicQuery) (p_info : SystemExeInfo) : SystemExeInfo :=
  if q.is_valid = false then p_info else get_system_info_loop q.elements p_info

/-- The call `accessors.resize(n)`: the existing accessors are kept. -/
def resize_accessors (accessors : List ComponentDynamicExposer) (n : Nat) :
    List ComponentDynamicExposer :=
  accessors.take n ++ List.replicate (n - accessors.length) ComponentDynamicExposer.default

/-- The loop of source lines 385-389, `i` being the index of the head. -/
def with_container_loop : List DynamicQuerySelectElement → Nat → List Nat
  | [], _ => []
  | el :: rest, i =>
    if el.container = DynamicQueryElementContainer.WITH_CONTAINER then
      i :: with_container_loop rest (i + 1)
    else
      with_container_loop rest (i + 1)

/-- Source lines 361-392. -/
def prepare_world (q : DynamicQuery) (p_world : World) : DynamicQuery :=
  if q.can_change = false then q
  else if q.is_valid = false then q
  else
    { q with
      can_change := false
      world := some p_world
      accessors :=
        List.zipWith (fun a el => a.init el.id el.mutability)
          (resize_accessors q.accessors q.elements.length) q.elements
      elements := q.elements.map (fun el => el.prepare_world p_world)
      selects := q.selects ++
        [DynamicQuerySelect.select_with (with_container_loop q.elements 0)] }

/-- The loop of source lines 407-413: the groups, the element vector and the
buffer kept so far, after the loop. -/
def initiate_selects (w : World) : List DynamicQuerySelect → List DynamicQuerySelectElement →
    EntitiesBuffer → List DynamicQuerySelect × List DynamicQuerySelectElement × EntitiesBuffer
  | [], elements, entities => ([], elements, entities)
  | g :: rest, elements, entities =>
    let elements1 := g.initiate_process w elements
    let r := g.get_entities elements1
    let entities1 := if r.2.count < entities.count then r.2 else entities
    let t := initiate_selects w rest elements1 entities1
    (r.1 :: t.1, t.2.1, t.2.2)

/-- Source lines 394-422. -/
def initiate_process (q : DynamicQuery) (p_world : World) : DynamicQuery :=
  let q1 := q.prepare_world p_world
  let q2 := { q1 with current_entity := none, iterator_index := 0,
                      entities := { q1.entities with count := 0 } }
  if q2.is_valid = false then q2
  else
    let r := initiate_selects p_world q2.selects q2.elements
      { q2.entities with count := UINT32_MAX }
    if r.2.2.count = UINT32_MAX then
      { q2 with selects := r.1, elements := r.2.1,
                entities := { r.2.2 with count := 0 }, valid := false }
    else
      { q2 with selects := r.1, elements := r.2.1, entities := r.2.2 }

/-- The loop of source lines 425-427. -/
def conclude_selects : List DynamicQuerySelect → List DynamicQuerySelectElement →
    List DynamicQuerySelectElement
  | [], elements => elements
  | g :: rest, elements => conclude_selects rest (g.conclude_process elements)

/-- Source lines 424-433. -/
def conclude_process (q : DynamicQuery) : DynamicQuery :=
  { q with elements := conclude_selects q.selects q.elements, iterator_index := 0,
           entities := { q.entities with count := 0 } }

/-- Source lines 435-437. -/
def release_world (q : DynamicQuery) : DynamicQuery := { q with world := none }

/-- The loop of source lines 463-467. -/
def has_loop (elements : List DynamicQuerySelectElement) (p_id : EntityID) :
    List DynamicQuerySelect → Bool
  | [] => true
  | g :: rest =>
    if g.filter_satisfied elements p_id == false then false else has_loop elements p_id rest

/-- Source lines 461-471. -/
def has (q : DynamicQuery) (p_id : EntityID) : Bool :=
  has_loop q.elements p_id q.selects

/-- The loop of source lines 481-483. An accessor missing for an element is an
out-of-range access in the source; the loop of the model stops there. -/
def fetch_loop (p_entity_id : EntityID) (p_space : Space) :
    List DynamicQuerySelectElement → List ComponentDynamicExposer →
    List ComponentDynamicExposer
  | [], accessors => accessors
  | _ :: _, [] => []
  | el :: rest, a :: accessors =>
    el.fetch p_entity_id p_space a :: fetch_loop p_entity_id p_space rest accessors

/-- Source lines 480-485. -/
def fetch (q : DynamicQuery) (p_entity_id : EntityID) : DynamicQuery :=
  { q with accessors := fetch_loop p_entity_id q.space q.elements q.accessors,
           current_entity := some p_entity_id }

/-- The entity `entities.entities[i]` of the driver buffer. Reading past the
end of the buffer is out of range in the source and gives `0` here. -/
def driver_at (q : DynamicQuery) (i : Nat) : EntityID := q.entities.entities.getD i 0

/-- The while loop of source lines 443-451. The first argument bounds the number
of iterations; `next` passes the number of entries left, which the loop never
exceeds. -/
def next_loop : Nat → DynamicQuery → DynamicQuery × Bool
  | 0, q => (q, false)
  | fuel + 1, q =>
    if q.iterator_index < q.entities.count then
      let entity_id := q.driver_at q.iterator_index
      let q1 := { q with iterator_index := q.iterator_index + 1 }
      if q1.has entity_id then (q1.fetch entity_id, true) else next_loop fuel q1
    else (q, false)

/-- Source lines 441-455: the query after the call and the returned flag. -/
def next (q : DynamicQuery) : DynamicQuery × Bool :=
  next_loop (q.entities.count - q.iterator_index) q

/-- The loop of source lines 497-501: `n` iterations left, at index `i`, with
`count` matches so far. -/
def count_loop (q : DynamicQuery) : Nat → Nat → Nat → Nat
  | 0, _, count => count
  | n + 1, i, count =>
    count_loop q n (i + 1) (if q.has (q.driver_at i) then count + 1 else count)

/-- Source lines 495-503 (a `const` method: it returns a value and has no effect
on the query). -/
def count (q : DynamicQuery) : Nat := count_loop q q.entities.count 0 0

/-- Source lines 491-493. -/
def get_current_entity_id (q : DynamicQuery) : Option EntityID := q.current_entity

end DynamicQuery

end godex

/-! ## Definitions used to state the properties -/

namespace godex

/-- Keep the first buffer of smallest count, starting from `e`: the comparison
`eb.count < e.count` of the two selection loops, run over a list of buffers. -/
def keep_smallest (e : EntitiesBuffer) : List EntitiesBuffer → EntitiesBuffer
  | [] => e
  | b :: bs => keep_smallest (if b.count < e.count then b else e) bs


/-- The candidate buffers of the filter-determinant members of a group, in
member order. -/
def determinant_buffers (ms : List DynamicQuerySelectElement) : List EntitiesBuffer :=
  (ms.filter (fun m => m.is_filter_determinant)).map (fun m => m.get_entities)

/-- A registry in which every component id is registered and named by its own
number. -/
def registry : ECS := ⟨fun _ => true, fun i => i⟩

/-- Scenario A: component 10 holds the entities 1, 3, 5. -/
def world_A : World := ⟨[(10, ⟨[1, 3, 5]⟩)]⟩

/-- Scenario A: select component 10, then begin a cycle. -/
def scenario_A : DynamicQuery :=
  (DynamicQuery.fresh.select_component registry 10 false).initiate_process world_A

/-- Scenario B: component 10 holds 1, 2, 3 and component 11 holds 2. -/
def world_B : World := ⟨[(10, ⟨[1, 2, 3]⟩), (11, ⟨[2]⟩)]⟩

/-- Scenario B: select 10, select 11 and mark it `Without`, then begin a cycle. -/
def scenario_B : DynamicQuery :=
  (((DynamicQuery.fresh.select_component registry 10 false).select_component registry 11
    false).without 11).initiate_process world_B

/-- Scenario C: component 10 holds 1, 2 and component 11 holds 3. -/
def world_C : World := ⟨[(10, ⟨[1, 2]⟩), (11, ⟨[3]⟩)]⟩

/-- Scenario C before the cycle is begun: select 10 and 11 and group both into
an `Any`. -/
def scenario_C_built : DynamicQuery :=
  ((DynamicQuery.fresh.select_component registry 10 false).select_component registry 11
    false).any [10, 11]

/-- Scenario C: the query of `scenario_C_built` after a cycle is begun. -/
def scenario_C : DynamicQuery := scenario_C_built.initiate_process world_C

/-- Scenario D: select only component 10 and mark it `Maybe`; the state before
the cycle is begun. -/
def scenario_D : DynamicQuery :=
  (DynamicQuery.fresh.select_component registry 10 false).maybe 10

/-- Three components: 10 holds 1, 2, 3; 11 holds 4, 5; 12 holds 6. -/
def world_three : World := ⟨[(10, ⟨[1, 2, 3]⟩), (11, ⟨[4, 5]⟩), (12, ⟨[6]⟩)]⟩

/-- Select 10, 11 and 12, mark 12 `Maybe`, then begin a cycle over
`world_three`. -/
def three_selected : DynamicQuery :=
  ((((DynamicQuery.fresh.select_component registry 10 false).select_component registry 11
    false).select_component registry 12 false).maybe 12).initiate_process world_three

/-- Select 10, 11 and 12, mark 12 `Maybe`, group 10 and 11 into an `Any`, then
begin a cycle over `world_three`. -/
def three_any : DynamicQuery :=
  (((((DynamicQuery.fresh.select_component registry 10 false).select_component registry 11
    false).select_component registry 12 false).maybe 12).any [10, 11]).initiate_process
    world_three

/-- The element of scenario A during the cycle: component 10, chain `WITH`,
bound to the storage holding 1, 3, 5. -/
def element_A : DynamicQuerySelectElement :=
  { id := 10, name := 10, storage := some ⟨[1, 3, 5]⟩, mutability := false,
    fetch_enabled := true, changed := ⟨[], true⟩, opers := [SelectOperator.WITH],
    container := DynamicQueryElementContainer.WITH_CONTAINER, listening := false }

/-- The buffers returned by the calls `selects[i]->get_entities()` in the loop
of `initiate_process` (source lines 407-413), in group order. -/
def initiate_buffers (w : World) : List DynamicQuerySelect → List DynamicQuerySelectElement →
    List EntitiesBuffer
  | [], _ => []
  | g :: rest, elements =>
    (g.get_entities (g.initiate_process w elements)).2 ::
      initiate_buffers w rest (g.initiate_process w elements)

/-- The candidate buffers of the groups of the query, in group order, as
`initiate_process` computes them over the world `w`. -/
def candidate_buffers (q : DynamicQuery) (w : World) : List EntitiesBuffer :=
  initiate_buffers w (q.prepare_world w).selects (q.prepare_world w).elements

/-- The public operations that change a query. The methods `has`, `count` and
`is_valid` are `const` and are functions of the query. -/
inductive Operation where
  | set_space (p_space : Space)
  | select_component (p_component_id : component_id) (p_mutable : Bool)
  | without (p_component_id : component_id)
  | maybe (p_component_id : component_id)
  | changed (p_component_id : component_id)
  | any (p_component_ids : List component_id)
  | with_component (p_component_id : component_id) (p_mutable : Bool)
  | maybe_component (p_component_id : component_id) (p_mutable : Bool)
  | changed_component (p_component_id : component_id) (p_mutable : Bool)
  | not_component (p_component_id : component_id)
  | reset
  | prepare_world (p_world : World)
  | initiate_process (p_world : World)
  | conclude_process
  | release_world
  | next
  | fetch (p_entity_id : EntityID)
deriving DecidableEq, Repr

/-- The query after one operation. -/
def Operation.apply (ecs : ECS) (q : DynamicQuery) : Operation → DynamicQuery
  | Operation.set_space p_space => q.set_space p_space
  | Operation.select_component p_id p_mutable => q.select_component ecs p_id p_mutable
  | Operation.without p_id => q.without p_id
  | Operation.maybe p_id => q.maybe p_id
  | Operation.changed p_id => q.changed p_id
  | Operation.any p_ids => q.any p_ids
  | Operation.with_component p_id p_mutable => q.with_component ecs p_id p_mutable
  | Operation.maybe_component p_id p_mutable => q.maybe_component ecs p_id p_mutable
  | Operation.changed_component p_id p_mutable => q.changed_component ecs p_id p_mutable
  | Operation.not_component p_id => q.not_component ecs p_id
  | Operation.reset => q.reset
  | Operation.prepare_world p_world => q.prepare_world p_world
  | Operation.initiate_process p_world => q.initiate_process p_world
  | Operation.conclude_process => q.conclude_process
  | Operation.release_world => q.release_world
  | Operation.next => q.next.1
  | Operation.fetch p_entity_id => q.fetch p_entity_id

/-- The query after a sequence of operations. -/
def run (ecs : ECS) : List Operation → DynamicQuery → DynamicQuery
  | [], q => q
  | op :: ops, q => run ecs ops (op.apply ecs q)

/-- Select 10, 11 and 12 and group 10 and 11 into an `Any`; the state before
the cycle is begun. -/
def three_grouped : DynamicQuery :=
  (((DynamicQuery.fresh.select_component registry 10 false).select_component registry 11
    false).select_component registry 12 false).any [10, 11]

/-- An `Any` group that has a filter-determinant member and a member that is
not filter-determinant. -/
def DynamicQuerySelect.is_mixed_any (g : DynamicQuerySelect)
    (elements : List DynamicQuerySelectElement) : Bool :=
  match g with
  | DynamicQuerySelect.select_with _ => false
  | DynamicQuerySelect.select_any idxs _ =>
    DynamicQuerySelect.any_determinant (select_members elements idxs) &&
      !DynamicQuerySelect.all_determinant (select_members elements idxs)

/-- The second element of scenario B during the cycle: component 11, chain
`WITH, WITHOUT`, bound to the storage holding 2. -/
def element_without : DynamicQuerySelectElement :=
  { id := 11, name := 11, storage := some ⟨[2]⟩, mutability := false,
    fetch_enabled := true, changed := ⟨[], true⟩,
    opers := [SelectOperator.WITH, SelectOperator.WITHOUT],
    container := DynamicQueryElementContainer.WITH_CONTAINER, listening := false }

/-- The third element of `three_selected` during the cycle: component 12, chain
`WITH, MAYBE`, bound to the storage holding 6. -/
def element_maybe : DynamicQuerySelectElement :=
  { id := 12, name := 12, storage := some ⟨[6]⟩, mutability := false,
    fetch_enabled := true, changed := ⟨[], true⟩,
    opers := [SelectOperator.WITH, SelectOperator.MAYBE],
    container := DynamicQueryElementContainer.WITH_CONTAINER, listening := false }

/-- An element with chain `WITH, CHANGED` during a cycle: component 10, bound to
a storage holding 1, 3, 5, with entity 3 in its change set. -/
def element_changed : DynamicQuerySelectElement :=
  { id := 10, name := 10, storage := some ⟨[1, 3, 5]⟩, mutability := false,
    fetch_enabled := true, changed := ⟨[3], true⟩,
    opers := [SelectOperator.WITH, SelectOperator.CHANGED],
    container := DynamicQueryElementContainer.WITH_CONTAINER, listening := true }

/-- A registry in which the component ids below 100 are registered, each named
by its own number. -/
def registry_small : ECS := ⟨fun i => decide (i < 100), fun i => i⟩

/-- Select component 10, then select the unregistered component 100: the query
is invalid and holds the element of component 10. -/
def invalid_built : DynamicQuery :=
  (DynamicQuery.fresh.select_component registry_small 10 false).select_component
    registry_small 100 false

/-- The part of an element that the build fixes: component id, name,
mutability and operator chain. -/
def DynamicQuerySelectElement.selection (el : DynamicQuerySelectElement) :
    component_id × StringName × Bool × List SelectOperator :=
  (el.id, el.name, el.mutability, el.opers)

/-- The element of component 10 after `select_component`, `without` and
`maybe`: its chain is `WITH, WITHOUT, MAYBE`. -/
def element_two_modifiers : DynamicQuerySelectElement :=
  { id := 10, name := 10, storage := none, mutability := false, fetch_enabled := true,
    changed := EntityList.empty,
    opers := [SelectOperator.WITH, SelectOperator.WITHOUT, SelectOperator.MAYBE],
    container := DynamicQueryElementContainer.WITH_CONTAINER, listening := false }

/-- Select components 10 and 12; the state before any grouping. -/
def two_selected : DynamicQuery :=
  (DynamicQuery.fresh.select_component registry 10 false).select_component registry 12 false

/-- Component 10 holds entity 1 and component 12 holds entities 1 and 2. -/
def world_pair : World := ⟨[(10, ⟨[1]⟩), (12, ⟨[1, 2]⟩)]⟩

end godex

/-! ## Properties -/

namespace godex

theorem with_filter_eq_all (e : EntityID) (ms : List DynamicQuerySelectElement) :
    DynamicQuerySelectWith.filter_satisfied e ms = ms.all (fun m => m.filter_satisfied e) := by
  induction ms with
  | nil => rfl
  | cons m ms ih =>
    simp only [DynamicQuerySelectWith.filter_satisfied, List.all_cons, ih]
    cases m.filter_satisfied e <;> simp

theorem any_determinant_eq_any (ms : List DynamicQuerySelectElement) :
    DynamicQuerySelect.any_determinant ms = ms.any (fun m => m.is_filter_determinant) := by
  induction ms with
  | nil => rfl
  | cons m ms ih =>
    simp only [DynamicQuerySelect.any_determinant, List.any_cons, ih]
    cases m.is_filter_determinant <;> simp

theorem opers_last_getElem (el : DynamicQuerySelectElement) (op : SelectOperator)
    (h : el.opers.getLast? = some op) :
    ∃ k, el.opers.length = k + 1 ∧ el.opers[k]? = some op := by
  rw [List.getLast?_eq_getElem?] at h
  cases hl : el.opers.length with
  | zero =>
    rw [List.length_eq_zero] at hl
    simp [hl] at h
  | succ k =>
    refine ⟨k, rfl, ?_⟩
    rw [hl] at h
    simpa using h

theorem filter_satisfied_with (el : DynamicQuerySelectElement) (s : StorageBase) (e : EntityID)
    (hop : el.opers.getLast? = some SelectOperator.WITH) (hs : el.storage = some s) :
    el.filter_satisfied e = s.has e := by
  obtain ⟨k, hk, hget⟩ := opers_last_getElem el _ hop
  simp [DynamicQuerySelectElement.filter_satisfied, hk,
    DynamicQuerySelectElement._filter_satisfied_with_oper, hget, hs]

theorem keep_smallest_spec (bs : List EntitiesBuffer) : ∀ e : EntitiesBuffer,
    (keep_smallest e bs).count ≤ e.count ∧
    (∀ b ∈ bs, (keep_smallest e bs).count ≤ b.count) ∧
    ((keep_smallest e bs = e ∧ ∀ b ∈ bs, e.count ≤ b.count) ∨
      (∃ i, bs[i]? = some (keep_smallest e bs) ∧ (keep_smallest e bs).count < e.count ∧
        ∀ (j : Nat) (b : EntitiesBuffer), j < i → bs[j]? = some b → (keep_smallest e bs).count < b.count)) := by
  induction bs with
  | nil =>
    intro e
    simp [keep_smallest]
  | cons b bs ih =>
    intro e
    simp only [keep_smallest]
    by_cases hlt : b.count < e.count
    · simp only [hlt, if_true]
      obtain ⟨h1, h2, h3⟩ := ih b
      refine ⟨by omega, ?_, ?_⟩
      · intro b' hb'
        rcases List.mem_cons.1 hb' with rfl | hb'
        · exact h1
        · exact h2 b' hb'
      · right
        rcases h3 with ⟨heq, _⟩ | ⟨i, hi, hc, hj⟩
        · refine ⟨0, by simp [heq], by rw [heq]; exact hlt, ?_⟩
          intro j b' hj'
          omega
        · refine ⟨i + 1, by simpa using hi, by omega, ?_⟩
          intro j b' hj' hb'
          cases j with
          | zero =>
            simp at hb'
            subst hb'
            exact hc
          | succ j =>
            simp at hb'
            exact hj j b' (by omega) hb'
    · simp only [hlt, if_false]
      obtain ⟨h1, h2, h3⟩ := ih e
      refine ⟨h1, ?_, ?_⟩
      · intro b' hb'
        rcases List.mem_cons.1 hb' with rfl | hb'
        · omega
        · exact h2 b' hb'
      · rcases h3 with ⟨heq, hall⟩ | ⟨i, hi, hc, hj⟩
        · left
          refine ⟨heq, ?_⟩
          intro b' hb'
          rcases List.mem_cons.1 hb' with rfl | hb'
          · omega
          · exact hall b' hb'
        · right
          refine ⟨i + 1, by simpa using hi, hc, ?_⟩
          intro j b' hj' hb'
          cases j with
          | zero =>
            simp at hb'
            subst hb'
            omega
          | succ j =>
            simp at hb'
            exact hj j b' (by omega) hb'

theorem with_loop_eq_keep_smallest (ms : List DynamicQuerySelectElement) :
    ∀ e : EntitiesBuffer, DynamicQuerySelectWith.get_entities_loop ms e =
      keep_smallest e ((ms.filter (fun m => m.is_filter_determinant)).map
        (fun m => m.get_entities)) := by
  induction ms with
  | nil => intro e; rfl
  | cons m ms ih =>
    intro e
    simp only [DynamicQuerySelectWith.get_entities_loop]
    by_cases hd : m.is_filter_determinant = true
    · simp only [hd, if_true, List.filter_cons_of_pos, List.map_cons, keep_smallest]
      by_cases hlt : m.get_entities.count < e.count
      · simp only [hlt, if_true, ih]
      · simp only [hlt, if_false, ih]
    · have hd' : m.is_filter_determinant = false := by simpa using hd
      rw [List.filter_cons_of_neg (by simp [hd'])]
      simp [hd', ih]

theorem element_buffer_take (m : DynamicQuerySelectElement) :
    m.get_entities.entities.take m.get_entities.count = m.get_entities.entities := by
  unfold DynamicQuerySelectElement.get_entities
  cases m.storage with
  | none => simp [EntitiesBuffer.unbounded]
  | some s =>
    simp only
    split <;> simp [EntitiesBuffer.unbounded, StorageBase.get_stored_entities, EntityList.size,
      EntityList.get_entities_ptr]

theorem not_determinant_unbounded (m : DynamicQuerySelectElement)
    (h : m.is_filter_determinant = false) : m.get_entities = EntitiesBuffer.unbounded := by
  unfold DynamicQuerySelectElement.is_filter_determinant at h
  unfold DynamicQuerySelectElement.get_entities
  cases m.storage with
  | none => rfl
  | some s =>
    cases hop : m.opers.getLast? with
    | none => rfl
    | some op =>
      rw [hop] at h
      cases op <;> simp_all

theorem determinant_filter_iff (m : DynamicQuerySelectElement) (e : EntityID)
    (h : m.is_filter_determinant = true) :
    m.filter_satisfied e = decide (e ∈ m.get_entities.entities) := by
  unfold DynamicQuerySelectElement.is_filter_determinant at h
  split at h
  · rename_i hop
    obtain ⟨k, hk, hget⟩ := opers_last_getElem m _ hop
    cases hs : m.storage with
    | none =>
      simp [DynamicQuerySelectElement.filter_satisfied, hk,
        DynamicQuerySelectElement._filter_satisfied_with_oper, hget, hs,
        DynamicQuerySelectElement.get_entities, EntitiesBuffer.unbounded]
    | some s =>
      simp [DynamicQuerySelectElement.filter_satisfied, hk,
        DynamicQuerySelectElement._filter_satisfied_with_oper, hget, hs,
        DynamicQuerySelectElement.get_entities, hop, StorageBase.has,
        StorageBase.get_stored_entities]
  · rename_i hop
    obtain ⟨k, hk, hget⟩ := opers_last_getElem m _ hop
    cases hs : m.storage with
    | none =>
      simp [DynamicQuerySelectElement.filter_satisfied, hk,
        DynamicQuerySelectElement._filter_satisfied_with_oper, hget, hs,
        DynamicQuerySelectElement.get_entities, EntitiesBuffer.unbounded]
    | some s =>
      simp [DynamicQuerySelectElement.filter_satisfied, hk,
        DynamicQuerySelectElement._filter_satisfied_with_oper, hget, hs,
        DynamicQuerySelectElement.get_entities, hop, EntityList.has,
        EntityList.get_entities_ptr]
  · simp at h

theorem mem_insert_dense (l : EntityList) (e x : EntityID) :
    x ∈ (l.insert e).dense ↔ x ∈ l.dense ∨ x = e := by
  unfold EntityList.insert EntityList.has
  by_cases h : e ∈ l.dense
  · simp only [h, decide_True, if_true]
    constructor
    · intro hx; exact Or.inl hx
    · rintro (hx | rfl)
      · exact hx
      · exact h
  · simp [h]

theorem nodup_insert_dense (l : EntityList) (e : EntityID) (h : l.dense.Nodup) :
    (l.insert e).dense.Nodup := by
  unfold EntityList.insert EntityList.has
  by_cases he : e ∈ l.dense
  · simpa [he] using h
  · simp only [he, decide_False, Bool.false_eq_true, if_false]
    rw [List.nodup_append]
    refine ⟨h, by simp, ?_⟩
    intro a ha hb
    simp at hb
    subst hb
    exact he ha

theorem foldl_insert_spec (es : List EntityID) : ∀ l : EntityList,
    (∀ x, x ∈ (es.foldl EntityList.insert l).dense ↔ x ∈ l.dense ∨ x ∈ es) ∧
    (l.dense.Nodup → (es.foldl EntityList.insert l).dense.Nodup) := by
  induction es with
  | nil => intro l; simp
  | cons a es ih =>
    intro l
    obtain ⟨h1, h2⟩ := ih (l.insert a)
    simp only [List.foldl_cons]
    refine ⟨?_, fun hn => h2 (nodup_insert_dense l a hn)⟩
    intro x
    rw [h1, mem_insert_dense]
    simp only [List.mem_cons]
    tauto

theorem any_loop_spec (ms : List DynamicQuerySelectElement) : ∀ l : EntityList,
    (∀ x, x ∈ (DynamicQuerySelectAny.get_entities_loop ms l).dense ↔
      x ∈ l.dense ∨ ∃ m ∈ ms, m.get_entities.count ≠ UINT32_MAX ∧ x ∈ m.get_entities.entities) ∧
    (l.dense.Nodup → (DynamicQuerySelectAny.get_entities_loop ms l).dense.Nodup) := by
  induction ms with
  | nil => intro l; simp [DynamicQuerySelectAny.get_entities_loop]
  | cons m ms ih =>
    intro l
    simp only [DynamicQuerySelectAny.get_entities_loop]
    by_cases hc : m.get_entities.count = UINT32_MAX
    · simp only [hc, bne_self_eq_false, Bool.false_eq_true, if_false]
      obtain ⟨h1, h2⟩ := ih l
      refine ⟨?_, h2⟩
      intro x
      rw [h1]
      simp only [List.mem_cons, exists_eq_or_imp, hc, ne_eq, not_true_eq_false, false_and,
        false_or]
    · have hb : (m.get_entities.count != UINT32_MAX) = true := by simpa using hc
      simp only [hb, if_true]
      obtain ⟨h1, h2⟩ := ih (DynamicQuerySelectAny.insert_buffer l m.get_entities)
      have hf := foldl_insert_spec (m.get_entities.entities.take m.get_entities.count) l
      have hib : DynamicQuerySelectAny.insert_buffer l m.get_entities =
          (m.get_entities.entities.take m.get_entities.count).foldl EntityList.insert l := rfl
      rw [← hib, element_buffer_take] at hf
      refine ⟨?_, fun hn => h2 (hf.2 hn)⟩
      intro x
      rw [h1, hf.1]
      simp only [List.mem_cons, exists_eq_or_imp, ne_eq, hc, not_false_eq_true, true_and]
      tauto

/-- C6: for every entity and every list of member elements (the empty list
included), the filter of the conjunctive group, `DynamicQuerySelectWith`, is the
conjunction of the members' filters. -/
theorem C6_all_group_filter_is_conjunction (e : EntityID)
    (elements : List DynamicQuerySelectElement) (idxs : List Nat)
    (ms : List DynamicQuerySelectElement) :
    DynamicQuerySelectWith.filter_satisfied e ms = ms.all (fun m => m.filter_satisfied e) ∧
    (DynamicQuerySelect.select_with idxs).filter_satisfied elements e =
      (select_members elements idxs).all (fun m => m.filter_satisfied e) :=
  ⟨with_filter_eq_all e ms, with_filter_eq_all e (select_members elements idxs)⟩

/-- C10: for an element whose operator chain ends in `WITH` and whose storage is
bound, the filter of the element is `storage.has`. -/
theorem C10_with_filter_is_storage_has (el : DynamicQuerySelectElement) (s : StorageBase)
    (e : EntityID) (hop : el.opers.getLast? = some SelectOperator.WITH)
    (hs : el.storage = some s) :
    el.filter_satisfied e = s.has e :=
  filter_satisfied_with el s e hop hs

/-- C10 at the element of scenario A (chain `WITH`, storage 1, 3, 5): entity 3
is stored and satisfies the filter, entity 4 is not and does not. -/
theorem C10_witness :
    scenario_A.elements = [element_A] ∧
    element_A.opers.getLast? = some SelectOperator.WITH ∧
    element_A.storage = some ⟨[1, 3, 5]⟩ ∧
    element_A.filter_satisfied 3 = StorageBase.has ⟨[1, 3, 5]⟩ 3 ∧
    element_A.filter_satisfied 4 = StorageBase.has ⟨[1, 3, 5]⟩ 4 ∧
    element_A.filter_satisfied 3 = true ∧ element_A.filter_satisfied 4 = false :=
  ⟨by decide, by decide, by decide,
    C10_with_filter_is_storage_has element_A ⟨[1, 3, 5]⟩ 3 (by decide) (by decide),
    C10_with_filter_is_storage_has element_A ⟨[1, 3, 5]⟩ 4 (by decide) (by decide),
    by decide, by decide⟩

/-- C7: the candidate buffer of the conjunctive group is the unbounded sentinel
when no member is filter-determinant; otherwise it is the candidate buffer of the
first determinant member whose count is minimal among the determinant members;
its count is at most the count of every determinant member. The count of a
member buffer is taken to be below `UINT32_MAX` unless the buffer is the
sentinel. -/
theorem C7_all_group_candidates (ms : List DynamicQuerySelectElement)
    (hb : ∀ m ∈ ms, m.is_filter_determinant = true →
      m.get_entities.count < UINT32_MAX ∨ m.get_entities = EntitiesBuffer.unbounded) :
    (DynamicQuerySelect.any_determinant ms = false →
      DynamicQuerySelectWith.get_entities ms = EntitiesBuffer.unbounded) ∧
    (∀ m ∈ ms, m.is_filter_determinant = true →
      (DynamicQuerySelectWith.get_entities ms).count ≤ m.get_entities.count) ∧
    (DynamicQuerySelect.any_determinant ms = true →
      ∃ i, (determinant_buffers ms)[i]? = some (DynamicQuerySelectWith.get_entities ms) ∧
        (∀ (j : Nat) (b : EntitiesBuffer), j < i → (determinant_buffers ms)[j]? = some b →
          (DynamicQuerySelectWith.get_entities ms).count < b.count) ∧
        (∀ b ∈ determinant_buffers ms,
          (DynamicQuerySelectWith.get_entities ms).count ≤ b.count)) := by
  have heq : DynamicQuerySelectWith.get_entities ms =
      keep_smallest EntitiesBuffer.unbounded (determinant_buffers ms) :=
    with_loop_eq_keep_smallest ms _
  obtain ⟨_, h2, h3⟩ := keep_smallest_spec (determinant_buffers ms) EntitiesBuffer.unbounded
  rw [← heq] at h2 h3
  refine ⟨?_, ?_, ?_⟩
  · intro hnone
    rw [any_determinant_eq_any] at hnone
    have hnil : determinant_buffers ms = [] := by
      unfold determinant_buffers
      rw [List.map_eq_nil_iff, List.filter_eq_nil_iff]
      intro m hm
      have := List.any_eq_false.1 hnone m hm
      simpa using this
    rw [heq, hnil]
    rfl
  · intro m hm hd
    apply h2
    unfold determinant_buffers
    exact List.mem_map.2 ⟨m, List.mem_filter.2 ⟨hm, hd⟩, rfl⟩
  · intro hany
    rcases h3 with ⟨hr, hall⟩ | ⟨i, hi, _, hj⟩
    · rw [any_determinant_eq_any, List.any_eq_true] at hany
      obtain ⟨m0, hm0, hd0⟩ := hany
      cases hbufs : determinant_buffers ms with
      | nil =>
        have : m0.get_entities ∈ determinant_buffers ms :=
          List.mem_map.2 ⟨m0, List.mem_filter.2 ⟨hm0, hd0⟩, rfl⟩
        rw [hbufs] at this
        simp at this
      | cons b bs =>
        have hbmem : b ∈ determinant_buffers ms := by rw [hbufs]; simp
        obtain ⟨m, hm, rfl⟩ := List.mem_map.1 hbmem
        have hm' := List.mem_filter.1 hm
        have hge := hall _ hbmem
        refine ⟨0, ?_, ?_, ?_⟩
        · rcases hb m hm'.1 hm'.2 with hlt | hu
          · simp only [EntitiesBuffer.unbounded] at hge
            omega
          · simp [hr, hu]
        · intro j b' hj'
          omega
        · intro b' hb'
          rw [← hbufs] at hb'
          exact h2 b' hb'
    · exact ⟨i, hi, hj, h2⟩

/-- C7 at the conjunctive group of `three_selected`: members 10 (three
entities), 11 (two entities) and 12 (`Maybe`); the buffer of 11 is returned. -/
theorem C7_witness :
    DynamicQuerySelectWith.get_entities (select_members three_selected.elements [0, 1, 2]) =
      ⟨2, [4, 5]⟩ ∧
    determinant_buffers (select_members three_selected.elements [0, 1, 2]) =
      [⟨3, [1, 2, 3]⟩, ⟨2, [4, 5]⟩] ∧
    ∀ m ∈ select_members three_selected.elements [0, 1, 2], m.is_filter_determinant = true →
      (DynamicQuerySelectWith.get_entities
        (select_members three_selected.elements [0, 1, 2])).count ≤ m.get_entities.count :=
  ⟨by decide, by decide,
    (C7_all_group_candidates (select_members three_selected.elements [0, 1, 2])
      (by decide)).2.1⟩

theorem any_get_entities_spec (ms : List DynamicQuerySelectElement) (ents : EntityList)
    (hany : DynamicQuerySelect.any_determinant ms = true) :
    (DynamicQuerySelectAny.get_entities ms ents).2.entities =
      (DynamicQuerySelectAny.get_entities ms ents).1.dense ∧
    (DynamicQuerySelectAny.get_entities ms ents).2.count =
      (DynamicQuerySelectAny.get_entities ms ents).2.entities.length ∧
    (DynamicQuerySelectAny.get_entities ms ents).1.dense.Nodup ∧
    ∀ x, x ∈ (DynamicQuerySelectAny.get_entities ms ents).1.dense ↔
      ∃ m ∈ ms, m.get_entities.count ≠ UINT32_MAX ∧ x ∈ m.get_entities.entities := by
  obtain ⟨h1, h2⟩ := any_loop_spec ms ents.clear
  simp only [DynamicQuerySelectAny.get_entities, hany, if_true, EntityList.size,
    EntityList.get_entities_ptr, true_and]
  refine ⟨h2 (by simp [EntityList.clear]), ?_⟩
  intro x
  rw [h1]
  simp [EntityList.clear]

theorem bounded_count_ne (m : DynamicQuerySelectElement) (x : EntityID)
    (hb : m.get_entities.count < UINT32_MAX ∨ m.get_entities = EntitiesBuffer.unbounded)
    (hx : x ∈ m.get_entities.entities) : m.get_entities.count ≠ UINT32_MAX := by
  rcases hb with hlt | hu
  · omega
  · rw [hu] at hx
    simp [EntitiesBuffer.unbounded] at hx

/-- C8: the candidate buffer of the disjunctive group, `DynamicQuerySelectAny`.
With no filter-determinant member it is the unbounded sentinel. With at least
one, it has no duplicate entity, its entities are exactly those of the candidate
buffers of the determinant members, and its count is the number of distinct
entities of these buffers. The count of a member buffer is taken to be below
`UINT32_MAX` unless the buffer is the sentinel. -/
theorem C8_any_group_candidates (ms : List DynamicQuerySelectElement) (ents : EntityList)
    (hb : ∀ m ∈ ms, m.is_filter_determinant = true →
      m.get_entities.count < UINT32_MAX ∨ m.get_entities = EntitiesBuffer.unbounded) :
    (DynamicQuerySelect.any_determinant ms = false →
      (DynamicQuerySelectAny.get_entities ms ents).2 = EntitiesBuffer.unbounded) ∧
    (DynamicQuerySelect.any_determinant ms = true →
      (DynamicQuerySelectAny.get_entities ms ents).2.entities.Nodup ∧
      (∀ x, x ∈ (DynamicQuerySelectAny.get_entities ms ents).2.entities ↔
        ∃ b ∈ determinant_buffers ms, x ∈ b.entities) ∧
      (DynamicQuerySelectAny.get_entities ms ents).2.count =
        (DynamicQuerySelectAny.get_entities ms ents).2.entities.length ∧
      (DynamicQuerySelectAny.get_entities ms ents).2.count =
        ((determinant_buffers ms).map (fun b => b.entities)).flatten.toFinset.card) := by
  refine ⟨?_, ?_⟩
  · intro hnone
    simp [DynamicQuerySelectAny.get_entities, hnone]
  · intro hany
    obtain ⟨h1, h2, h3, h4⟩ := any_get_entities_spec ms ents hany
    have hmem : ∀ x, x ∈ (DynamicQuerySelectAny.get_entities ms ents).2.entities ↔
        ∃ b ∈ determinant_buffers ms, x ∈ b.entities := by
      intro x
      rw [h1, h4]
      constructor
      · rintro ⟨m, hm, hc, hx⟩
        have hd : m.is_filter_determinant = true := by
          by_contra hnd
          have hu := not_determinant_unbounded m (by simpa using hnd)
          rw [hu] at hc
          exact hc rfl
        exact ⟨m.get_entities, List.mem_map.2 ⟨m, List.mem_filter.2 ⟨hm, hd⟩, rfl⟩, hx⟩
      · rintro ⟨b, hbm, hx⟩
        obtain ⟨m, hm, rfl⟩ := List.mem_map.1 hbm
        have hm' := List.mem_filter.1 hm
        exact ⟨m, hm'.1, bounded_count_ne m x (hb m hm'.1 hm'.2) hx, hx⟩
    refine ⟨h1 ▸ h3, hmem, h2, ?_⟩
    rw [h2, ← List.toFinset_card_of_nodup (h1 ▸ h3)]
    congr 1
    ext x
    simp only [List.mem_toFinset, hmem, List.mem_flatten, List.mem_map]
    constructor
    · rintro ⟨b, hbm, hx⟩
      exact ⟨b.entities, ⟨b, hbm, rfl⟩, hx⟩
    · rintro ⟨l, ⟨b, hbm, rfl⟩, hx⟩
      exact ⟨b, hbm, hx⟩

/-- C8 at the `Any` group of `three_any` (members 10 and 11): the buffer is
1, 2, 3, 4, 5 with count 5. -/
theorem C8_witness :
    (DynamicQuerySelectAny.get_entities (select_members three_any.elements [0, 1])
      EntityList.empty).2 = ⟨5, [1, 2, 3, 4, 5]⟩ ∧
    (DynamicQuerySelectAny.get_entities (select_members three_any.elements [0, 1])
      EntityList.empty).2.entities.Nodup :=
  ⟨by decide,
    ((C8_any_group_candidates (select_members three_any.elements [0, 1])
      EntityList.empty (by decide)).2 (by decide)).1⟩

theorem count_loop_spec (q : DynamicQuery) : ∀ (n i c : Nat),
    DynamicQuery.count_loop q n i c =
      c + ((List.range' i n).filter (fun j => q.has (q.driver_at j))).length := by
  intro n
  induction n with
  | zero => intro i c; simp [DynamicQuery.count_loop]
  | succ n ih =>
    intro i c
    simp only [DynamicQuery.count_loop, ih, List.range'_succ]
    by_cases h : q.has (q.driver_at i) = true
    · simp only [h, if_true, List.filter_cons_of_pos, List.length_cons]
      omega
    · have h' : q.has (q.driver_at i) = false := by simpa using h
      rw [List.filter_cons_of_neg (by simp [h'])]
      simp [h']

/-- C9: `count` returns the number of positions below the driver's count whose
entity satisfies `has`. It is a `const` method, embedded as a function from the
query to the returned number, so no field of the query is written. Scenario C:
the driver is 1, 2, 3, `count` is 3 and each of 1, 2, 3 satisfies `has`. -/
theorem C9_count (q : DynamicQuery) :
    q.count = ((List.range q.entities.count).filter
      (fun i => q.has (q.driver_at i))).length ∧
    scenario_C.entities = ⟨3, [1, 2, 3]⟩ ∧ scenario_C.count = 3 ∧
    scenario_C.has 1 = true ∧ scenario_C.has 2 = true ∧ scenario_C.has 3 = true := by
  refine ⟨?_, by decide, by decide, by decide, by decide, by decide⟩
  unfold DynamicQuery.count
  rw [count_loop_spec, List.range_eq_range']
  simp

theorem next_step (q : DynamicQuery) :
    q.next =
      if q.iterator_index < q.entities.count then
        if ({ q with iterator_index := q.iterator_index + 1 } : DynamicQuery).has
            (q.driver_at q.iterator_index) then
          (({ q with iterator_index := q.iterator_index + 1 } : DynamicQuery).fetch
            (q.driver_at q.iterator_index), true)
        else ({ q with iterator_index := q.iterator_index + 1 } : DynamicQuery).next
      else (q, false) := by
  unfold DynamicQuery.next
  by_cases h : q.iterator_index < q.entities.count
  · have hd : q.entities.count - q.iterator_index =
        (q.entities.count - (q.iterator_index + 1)) + 1 := by omega
    rw [hd]
    simp only [DynamicQuery.next_loop, h, if_true]
  · have hd : q.entities.count - q.iterator_index = 0 := by omega
    rw [hd]
    simp [DynamicQuery.next_loop, h]

theorem next_false_at_end (q : DynamicQuery) (h : q.entities.count ≤ q.iterator_index) :
    q.next = (q, false) := by
  rw [next_step]
  simp [Nat.not_lt.2 h]

theorem initiate_selects_driver (w : World) (gs : List DynamicQuerySelect) :
    ∀ (els : List DynamicQuerySelectElement) (e : EntitiesBuffer),
      (DynamicQuery.initiate_selects w gs els e).2.2 =
        keep_smallest e (initiate_buffers w gs els) := by
  induction gs with
  | nil => intro els e; rfl
  | cons g gs ih =>
    intro els e
    simp only [DynamicQuery.initiate_selects, initiate_buffers, keep_smallest, ih]

theorem keep_smallest_mem (bs : List EntitiesBuffer) (e : EntitiesBuffer) :
    keep_smallest e bs = e ∨ keep_smallest e bs ∈ bs := by
  rcases (keep_smallest_spec bs e).2.2 with ⟨h, _⟩ | ⟨i, hi, _⟩
  · exact Or.inl h
  · exact Or.inr (List.getElem?_mem hi)

theorem prepare_world_valid (q : DynamicQuery) (w : World) :
    (q.prepare_world w).valid = q.valid := by
  unfold DynamicQuery.prepare_world
  split
  · rfl
  · split <;> rfl

/-- The three ways `initiate_process` ends: the early return on an invalid
query, the invalidation when the kept count is the sentinel, and the normal
end. -/
theorem initiate_process_cases (q : DynamicQuery) (w : World) :
    ((q.prepare_world w).valid = false ∧
      (q.initiate_process w).valid = false ∧
      (q.initiate_process w).entities.count = 0 ∧
      (q.initiate_process w).iterator_index = 0) ∨
    ((q.prepare_world w).valid = true ∧
      (keep_smallest ⟨UINT32_MAX, (q.prepare_world w).entities.entities⟩
        (candidate_buffers q w)).count = UINT32_MAX ∧
      (q.initiate_process w).valid = false ∧
      (q.initiate_process w).entities.count = 0 ∧
      (q.initiate_process w).iterator_index = 0) ∨
    ((q.prepare_world w).valid = true ∧
      (keep_smallest ⟨UINT32_MAX, (q.prepare_world w).entities.entities⟩
        (candidate_buffers q w)).count ≠ UINT32_MAX ∧
      (q.initiate_process w).valid = true ∧
      (q.initiate_process w).entities =
        keep_smallest ⟨UINT32_MAX, (q.prepare_world w).entities.entities⟩
          (candidate_buffers q w) ∧
      (q.initiate_process w).iterator_index = 0 ∧
      (q.initiate_process w).selects =
        (DynamicQuery.initiate_selects w (q.prepare_world w).selects
          (q.prepare_world w).elements
          ⟨UINT32_MAX, (q.prepare_world w).entities.entities⟩).1 ∧
      (q.initiate_process w).elements =
        (DynamicQuery.initiate_selects w (q.prepare_world w).selects
          (q.prepare_world w).elements
          ⟨UINT32_MAX, (q.prepare_world w).entities.entities⟩).2.1) := by
  unfold candidate_buffers
  rw [← initiate_selects_driver]
  unfold DynamicQuery.initiate_process
  simp only [DynamicQuery.is_valid]
  by_cases hv : (q.prepare_world w).valid = true
  · by_cases hc : (DynamicQuery.initiate_selects w (q.prepare_world w).selects
        (q.prepare_world w).elements
        ⟨UINT32_MAX, (q.prepare_world w).entities.entities⟩).2.2.count = UINT32_MAX
    · right; left
      simp [hv, hc]
    · right; right
      simp [hv, hc]
  · left
    have hv' : (q.prepare_world w).valid = false := by simpa using hv
    simp [hv']

/-- C3: when a query valid before `initiate_process` has a group with a finite
candidate buffer, the query stays valid and the driver is the candidate buffer
of the first group, in group order, whose count is minimal among the candidate
buffers of all groups; so its count is at most that of every group. -/
theorem C3_driver_is_first_smallest (q : DynamicQuery) (w : World) (hv : q.valid = true)
    (hfin : ∃ b ∈ candidate_buffers q w, b.count < UINT32_MAX) :
    (q.initiate_process w).valid = true ∧
    ∃ i, (candidate_buffers q w)[i]? = some (q.initiate_process w).entities ∧
      (∀ (j : Nat) (b : EntitiesBuffer), j < i → (candidate_buffers q w)[j]? = some b →
        (q.initiate_process w).entities.count < b.count) ∧
      (∀ b ∈ candidate_buffers q w, (q.initiate_process w).entities.count ≤ b.count) := by
  obtain ⟨b0, hb0, hlt0⟩ := hfin
  obtain ⟨_, h2, h3⟩ := keep_smallest_spec (candidate_buffers q w)
    ⟨UINT32_MAX, (q.prepare_world w).entities.entities⟩
  have hsmall : (keep_smallest ⟨UINT32_MAX, (q.prepare_world w).entities.entities⟩
      (candidate_buffers q w)).count ≠ UINT32_MAX := by
    have := h2 b0 hb0
    omega
  rcases initiate_process_cases q w with ⟨h, _⟩ | ⟨_, hc, _⟩ | ⟨_, _, hval, he, _⟩
  · rw [prepare_world_valid, hv] at h; cases h
  · exact absurd hc hsmall
  · refine ⟨hval, ?_⟩
    rw [he]
    rcases h3 with ⟨hk, _⟩ | ⟨i, hi, _, hj⟩
    · rw [hk] at hsmall
      exact absurd rfl hsmall
    · exact ⟨i, hi, hj, h2⟩

/-- C3 at `three_grouped` over `world_three`: the `Any` group of 10 and 11 has
five candidates, the conjunctive group of 12 has one, and the driver is the
buffer of the conjunctive group. -/
theorem C3_witness :
    candidate_buffers three_grouped world_three = [⟨5, [1, 2, 3, 4, 5]⟩, ⟨1, [6]⟩] ∧
    (three_grouped.initiate_process world_three).entities = ⟨1, [6]⟩ ∧
    ((three_grouped.initiate_process world_three).valid = true ∧
      ∃ i, (candidate_buffers three_grouped world_three)[i]? =
          some (three_grouped.initiate_process world_three).entities ∧
        (∀ (j : Nat) (b : EntitiesBuffer), j < i →
          (candidate_buffers three_grouped world_three)[j]? = some b →
          (three_grouped.initiate_process world_three).entities.count < b.count) ∧
        (∀ b ∈ candidate_buffers three_grouped world_three,
          (three_grouped.initiate_process world_three).entities.count ≤ b.count)) :=
  ⟨by decide, by decide,
    C3_driver_is_first_smallest three_grouped world_three (by decide)
      ⟨⟨1, [6]⟩, by decide, by decide⟩⟩

theorem with_component_invalid (ecs : ECS) (q : DynamicQuery) (p_id : component_id)
    (p_mutable : Bool) (hv : q.valid = false) : q._with_component ecs p_id p_mutable = q := by
  simp [DynamicQuery._with_component, DynamicQuery.is_valid, hv]

theorem insert_element_oper_keeps (q : DynamicQuery) (p_id : component_id)
    (oper : SelectOperator) :
    (q._insert_element_oper p_id oper).valid = q.valid ∧
    (q._insert_element_oper p_id oper).entities = q.entities := by
  unfold DynamicQuery._insert_element_oper
  split <;> exact ⟨rfl, rfl⟩

theorem any_keeps (q : DynamicQuery) (p_ids : List component_id) :
    (q.any p_ids).valid = q.valid ∧ (q.any p_ids).entities = q.entities := by
  unfold DynamicQuery.any
  split <;> exact ⟨rfl, rfl⟩

theorem prepare_world_invalid (q : DynamicQuery) (w : World) (hv : q.valid = false) :
    q.prepare_world w = q := by
  unfold DynamicQuery.prepare_world
  simp [DynamicQuery.is_valid, hv]

theorem invalid_step (ecs : ECS) (q : DynamicQuery) (op : Operation)
    (hop : op ≠ Operation.reset) (hv : q.valid = false) (hc : q.entities.count = 0) :
    (op.apply ecs q).valid = false ∧ (op.apply ecs q).entities.count = 0 := by
  cases op with
  | set_space p_space => exact ⟨hv, hc⟩
  | select_component p_id p_mutable =>
    simp only [Operation.apply, DynamicQuery.select_component,
      with_component_invalid ecs q p_id p_mutable hv]
    exact ⟨hv, hc⟩
  | without p_id =>
    obtain ⟨h1, h2⟩ := insert_element_oper_keeps q p_id SelectOperator.WITHOUT
    exact ⟨h1.trans hv, by rw [show (Operation.apply ecs q (Operation.without p_id)).entities =
      q.entities from h2]; exact hc⟩
  | maybe p_id =>
    obtain ⟨h1, h2⟩ := insert_element_oper_keeps q p_id SelectOperator.MAYBE
    exact ⟨h1.trans hv, by rw [show (Operation.apply ecs q (Operation.maybe p_id)).entities =
      q.entities from h2]; exact hc⟩
  | changed p_id =>
    obtain ⟨h1, h2⟩ := insert_element_oper_keeps q p_id SelectOperator.CHANGED
    exact ⟨h1.trans hv, by rw [show (Operation.apply ecs q (Operation.changed p_id)).entities =
      q.entities from h2]; exact hc⟩
  | any p_ids =>
    obtain ⟨h1, h2⟩ := any_keeps q p_ids
    exact ⟨h1.trans hv, by rw [show (Operation.apply ecs q (Operation.any p_ids)).entities =
      q.entities from h2]; exact hc⟩
  | with_component p_id p_mutable =>
    simp only [Operation.apply, DynamicQuery.with_component, DynamicQuery.select_component,
      with_component_invalid ecs q p_id p_mutable hv]
    exact ⟨hv, hc⟩
  | maybe_component p_id p_mutable =>
    simp only [Operation.apply, DynamicQuery.maybe_component, DynamicQuery.select_component,
      with_component_invalid ecs q p_id p_mutable hv, DynamicQuery.maybe]
    obtain ⟨h1, h2⟩ := insert_element_oper_keeps q p_id SelectOperator.MAYBE
    exact ⟨h1.trans hv, by rw [h2]; exact hc⟩
  | changed_component p_id p_mutable =>
    simp only [Operation.apply, DynamicQuery.changed_component, DynamicQuery.select_component,
      with_component_invalid ecs q p_id p_mutable hv, DynamicQuery.changed]
    obtain ⟨h1, h2⟩ := insert_element_oper_keeps q p_id SelectOperator.CHANGED
    exact ⟨h1.trans hv, by rw [h2]; exact hc⟩
  | not_component p_id =>
    simp only [Operation.apply, DynamicQuery.not_component, DynamicQuery.select_component,
      with_component_invalid ecs q p_id false hv, DynamicQuery.without]
    obtain ⟨h1, h2⟩ := insert_element_oper_keeps q p_id SelectOperator.WITHOUT
    exact ⟨h1.trans hv, by rw [h2]; exact hc⟩
  | reset => exact absurd rfl hop
  | prepare_world p_world =>
    simp only [Operation.apply, prepare_world_invalid q p_world hv]
    exact ⟨hv, hc⟩
  | initiate_process p_world =>
    simp only [Operation.apply]
    rcases initiate_process_cases q p_world with ⟨_, h1, h2, _⟩ | ⟨_, _, h1, h2, _⟩ | ⟨h, _⟩
    · exact ⟨h1, h2⟩
    · exact ⟨h1, h2⟩
    · rw [prepare_world_valid, hv] at h; cases h
  | conclude_process => exact ⟨hv, rfl⟩
  | release_world => exact ⟨hv, hc⟩
  | next =>
    simp only [Operation.apply, next_false_at_end q (by omega)]
    exact ⟨hv, hc⟩
  | fetch p_entity_id => exact ⟨hv, hc⟩

theorem invalid_run (ecs : ECS) (ops : List Operation) : ∀ (q : DynamicQuery),
    Operation.reset ∉ ops → q.valid = false → q.entities.count = 0 →
    (run ecs ops q).valid = false ∧ (run ecs ops q).entities.count = 0 := by
  induction ops with
  | nil => intro q _ hv hc; exact ⟨hv, hc⟩
  | cons op ops ih =>
    intro q hr hv hc
    have hop : op ≠ Operation.reset := by
      intro h; subst h; exact hr (by simp)
    obtain ⟨h1, h2⟩ := invalid_step ecs q op hop hv hc
    exact ih _ (fun h => hr (List.mem_cons_of_mem _ h)) h1 h2

theorem count_of_empty_driver (q : DynamicQuery) (hc : q.entities.count = 0) : q.count = 0 := by
  unfold DynamicQuery.count
  rw [hc]
  rfl

/-- C4: if no group yields a finite candidate buffer at `initiate_process`, the
query is invalid afterwards, and after every further sequence of operations
other than `reset` (mutators, `initiate_process`, `conclude_process`, `next`,
`fetch`) it is still invalid, `next` returns false and `count` returns 0. -/
theorem C4_unusable_query_stays_invalid (ecs : ECS) (q : DynamicQuery) (w : World)
    (hnone : ∀ b ∈ candidate_buffers q w, UINT32_MAX ≤ b.count)
    (ops : List Operation) (hr : Operation.reset ∉ ops) :
    (q.initiate_process w).is_valid = false ∧
    (run ecs ops (q.initiate_process w)).is_valid = false ∧
    (run ecs ops (q.initiate_process w)).next.2 = false ∧
    (run ecs ops (q.initiate_process w)).count = 0 := by
  have hdead : (q.initiate_process w).valid = false ∧
      (q.initiate_process w).entities.count = 0 := by
    rcases initiate_process_cases q w with ⟨_, h1, h2, _⟩ | ⟨_, _, h1, h2, _⟩ | ⟨_, hc, _⟩
    · exact ⟨h1, h2⟩
    · exact ⟨h1, h2⟩
    · exfalso
      apply hc
      obtain ⟨h1, _, h3⟩ := keep_smallest_spec (candidate_buffers q w)
        ⟨UINT32_MAX, (q.prepare_world w).entities.entities⟩
      rcases h3 with ⟨hk, _⟩ | ⟨i, hi, hlt, _⟩
      · rw [hk]
      · have := hnone _ (List.getElem?_mem hi)
        simp only at hlt
        omega
  obtain ⟨h1, h2⟩ := invalid_run ecs ops _ hr hdead.1 hdead.2
  refine ⟨hdead.1, h1, ?_, count_of_empty_driver _ h2⟩
  rw [next_false_at_end _ (by omega)]

/-- C4 at scenario D (only component 10, marked `Maybe`): the only candidate
buffer is the sentinel, the query is invalid after `initiate_process`, and after
`next`, `conclude_process`, a second `initiate_process` and `next` it is still
invalid, `next` returns false and `count` is 0. -/
theorem C4_witness :
    candidate_buffers scenario_D world_A = [EntitiesBuffer.unbounded] ∧
    (scenario_D.initiate_process world_A).is_valid = false ∧
    (run registry [Operation.next, Operation.conclude_process,
      Operation.initiate_process world_A, Operation.next]
      (scenario_D.initiate_process world_A)).is_valid = false ∧
    (run registry [Operation.next, Operation.conclude_process,
      Operation.initiate_process world_A, Operation.next]
      (scenario_D.initiate_process world_A)).next.2 = false ∧
    (run registry [Operation.next, Operation.conclude_process,
      Operation.initiate_process world_A, Operation.next]
      (scenario_D.initiate_process world_A)).count = 0 :=
  ⟨by decide,
    C4_unusable_query_stays_invalid registry scenario_D world_A (by decide)
      [Operation.next, Operation.conclude_process, Operation.initiate_process world_A,
        Operation.next] (by decide)⟩

/-- An element is bound to the world `w` when `initiate_process` leaves it as it
is. -/
theorem element_initiate_idem (w : World) (el : DynamicQuerySelectElement) :
    (el.initiate_process w).initiate_process w = el.initiate_process w := by
  simp [DynamicQuerySelectElement.initiate_process, EntityList.freeze]

theorem modify_bound (w : World) (els : List DynamicQuerySelectElement) (j k : Nat)
    (hok : ∀ el, els[k]? = some el → el.initiate_process w = el) :
    (els.modify (fun el => el.initiate_process w) j)[k]? = els[k]? := by
  rw [List.getElem?_modify]
  cases h : els[k]? with
  | none => rfl
  | some el =>
    by_cases hjk : j = k
    · simp [hjk, hok el h]
    · simp [hjk]

theorem initiate_members_bound (w : World) (idxs : List Nat) :
    ∀ (els : List DynamicQuerySelectElement) (k : Nat),
      (∀ el, els[k]? = some el → el.initiate_process w = el) →
      (DynamicQuerySelect.initiate_members w idxs els)[k]? = els[k]? := by
  induction idxs with
  | nil => intro els k _; rfl
  | cons j rest ih =>
    intro els k hok
    simp only [DynamicQuerySelect.initiate_members]
    have h1 := modify_bound w els j k hok
    rw [ih _ k (by rw [h1]; exact hok), h1]

theorem initiate_members_binds (w : World) (idxs : List Nat) :
    ∀ (els : List DynamicQuerySelectElement) (k : Nat), k ∈ idxs →
      ∀ el, (DynamicQuerySelect.initiate_members w idxs els)[k]? = some el →
        el.initiate_process w = el := by
  induction idxs with
  | nil => intro els k hk; simp at hk
  | cons j rest ih =>
    intro els k hk el hel
    simp only [DynamicQuerySelect.initiate_members] at hel
    by_cases hjk : k = j
    · subst hjk
      have hok : ∀ el', (els.modify (fun el => el.initiate_process w) k)[k]? = some el' →
          el'.initiate_process w = el' := by
        intro el' hel'
        rw [List.getElem?_modify] at hel'
        cases h : els[k]? with
        | none => simp [h] at hel'
        | some a =>
          simp [h] at hel'
          rw [← hel']
          exact element_initiate_idem w a
      rw [initiate_members_bound w rest _ k hok] at hel
      exact hok el hel
    · have hk' : k ∈ rest := by
        rcases List.mem_cons.1 hk with h | h
        · exact absurd h hjk
        · exact h
      exact ih _ k hk' el hel

theorem initiate_selects_bound (w : World) (gs : List DynamicQuerySelect) :
    ∀ (els : List DynamicQuerySelectElement) (e0 : EntitiesBuffer) (k : Nat),
      (∀ el, els[k]? = some el → el.initiate_process w = el) →
      (DynamicQuery.initiate_selects w gs els e0).2.1[k]? = els[k]? := by
  induction gs with
  | nil => intro els e0 k _; rfl
  | cons g rest ih =>
    intro els e0 k hok
    simp only [DynamicQuery.initiate_selects]
    have h1 : (g.initiate_process w els)[k]? = els[k]? :=
      initiate_members_bound w g.select_elements els k hok
    rw [ih _ _ k (by rw [h1]; exact hok), h1]

theorem select_members_congr (els els' : List DynamicQuerySelectElement) (idxs : List Nat)
    (h : ∀ k ∈ idxs, els'[k]? = els[k]?) :
    select_members els' idxs = select_members els idxs := by
  unfold select_members
  induction idxs with
  | nil => rfl
  | cons k rest ih =>
    have hk := h k (by simp)
    have hrest := ih (fun k' hk' => h k' (List.mem_cons_of_mem _ hk'))
    simp only [List.filterMap_cons, hk, hrest]

theorem get_entities_select_elements (g : DynamicQuerySelect)
    (els : List DynamicQuerySelectElement) :
    (g.get_entities els).1.select_elements = g.select_elements := by
  cases g <;> rfl

theorem filter_satisfied_congr (g : DynamicQuerySelect)
    (els els' : List DynamicQuerySelectElement) (e : EntityID)
    (h : select_members els' g.select_elements = select_members els g.select_elements) :
    g.filter_satisfied els' e = g.filter_satisfied els e := by
  cases g with
  | select_with idxs =>
    simp only [DynamicQuerySelect.filter_satisfied]
    rw [show select_members els' idxs = select_members els idxs from h]
  | select_any idxs ents =>
    simp only [DynamicQuerySelect.filter_satisfied]
    rw [show select_members els' idxs = select_members els idxs from h]

theorem is_mixed_any_congr (g : DynamicQuerySelect)
    (els els' : List DynamicQuerySelectElement)
    (h : select_members els' g.select_elements = select_members els g.select_elements) :
    g.is_mixed_any els' = g.is_mixed_any els := by
  cases g with
  | select_with idxs => rfl
  | select_any idxs ents =>
    simp only [DynamicQuerySelect.is_mixed_any]
    rw [show select_members els' idxs = select_members els idxs from h]

/-- A finite candidate buffer of a group that is not a mixed `Any` holds every
entity the group accepts. -/
theorem group_buffer_superset (g : DynamicQuerySelect) (els : List DynamicQuerySelectElement)
    (e : EntityID) (hfin : (g.get_entities els).2.count < UINT32_MAX)
    (hmix : (g.get_entities els).1.is_mixed_any els = false)
    (hsat : (g.get_entities els).1.filter_satisfied els e = true) :
    e ∈ (g.get_entities els).2.entities := by
  cases g with
  | select_with idxs =>
    simp only [DynamicQuerySelect.get_entities, DynamicQuerySelect.filter_satisfied] at *
    have heq : DynamicQuerySelectWith.get_entities (select_members els idxs) =
        keep_smallest EntitiesBuffer.unbounded (determinant_buffers (select_members els idxs)) :=
      with_loop_eq_keep_smallest _ _
    rcases keep_smallest_mem (determinant_buffers (select_members els idxs))
        EntitiesBuffer.unbounded with hk | hk
    · rw [heq, hk] at hfin
      simp [EntitiesBuffer.unbounded] at hfin
    · rw [← heq] at hk
      obtain ⟨m, hm, hmb⟩ := List.mem_map.1 hk
      have hm' := List.mem_filter.1 hm
      rw [with_filter_eq_all, List.all_eq_true] at hsat
      have hf := hsat m hm'.1
      rw [determinant_filter_iff m e hm'.2] at hf
      rw [← hmb]
      simpa using hf
  | select_any idxs ents =>
    simp only [DynamicQuerySelect.get_entities, DynamicQuerySelect.filter_satisfied,
      DynamicQuerySelect.is_mixed_any] at *
    have hany : DynamicQuerySelect.any_determinant (select_members els idxs) = true := by
      by_contra hn
      have hn' : DynamicQuerySelect.any_determinant (select_members els idxs) = false := by
        simpa using hn
      simp [DynamicQuerySelectAny.get_entities, hn', EntitiesBuffer.unbounded] at hfin
    have hall : DynamicQuerySelect.all_determinant (select_members els idxs) = true := by
      simpa [hany] using hmix
    obtain ⟨h1, _, _, _⟩ := any_get_entities_spec (select_members els idxs) ents hany
    rw [h1]
    simpa [DynamicQuerySelectAny.filter_satisfied, hall, EntityList.has] using hsat

theorem initiate_selects_superset (w : World) (gs : List DynamicQuerySelect) :
    ∀ (els : List DynamicQuerySelectElement) (e0 : EntitiesBuffer) (e : EntityID),
      (∀ g ∈ (DynamicQuery.initiate_selects w gs els e0).1,
        g.is_mixed_any (DynamicQuery.initiate_selects w gs els e0).2.1 = false) →
      DynamicQuery.has_loop (DynamicQuery.initiate_selects w gs els e0).2.1 e
        (DynamicQuery.initiate_selects w gs els e0).1 = true →
      ∀ b ∈ initiate_buffers w gs els, b.count < UINT32_MAX → e ∈ b.entities := by
  induction gs with
  | nil => intro els e0 e _ _ b hb; simp [initiate_buffers] at hb
  | cons g rest ih =>
    intro els e0 e hmix hhas b hb hfin
    simp only [DynamicQuery.initiate_selects] at hmix hhas
    simp only [initiate_buffers, List.mem_cons] at hb
    simp only [DynamicQuery.has_loop] at hhas
    have hmem : select_members
        (DynamicQuery.initiate_selects w rest (g.initiate_process w els)
          (if (g.get_entities (g.initiate_process w els)).2.count < e0.count then
            (g.get_entities (g.initiate_process w els)).2 else e0)).2.1
        (g.get_entities (g.initiate_process w els)).1.select_elements =
        select_members (g.initiate_process w els)
          (g.get_entities (g.initiate_process w els)).1.select_elements := by
      apply select_members_congr
      intro k hk
      rw [get_entities_select_elements] at hk
      apply initiate_selects_bound
      exact initiate_members_binds w g.select_elements els k hk
    rw [filter_satisfied_congr _ _ _ e hmem] at hhas
    rcases hb with rfl | hb
    · apply group_buffer_superset g _ e hfin
      · rw [← is_mixed_any_congr _ _ _ hmem]
        exact hmix _ (by simp)
      · by_contra hn
        simp [hn] at hhas
    · apply ih _ _ e (fun g' hg' => hmix g' (List.mem_cons_of_mem _ hg')) ?_ b hb hfin
      by_contra hn
      have hn' : DynamicQuery.has_loop
          (DynamicQuery.initiate_selects w rest (g.initiate_process w els)
            (if (g.get_entities (g.initiate_process w els)).2.count < e0.count then
              (g.get_entities (g.initiate_process w els)).2 else e0)).2.1 e
          (DynamicQuery.initiate_selects w rest (g.initiate_process w els)
            (if (g.get_entities (g.initiate_process w els)).2.count < e0.count then
              (g.get_entities (g.initiate_process w els)).2 else e0)).1 = false := by
        simpa using hn
      simp [hn'] at hhas

theorem filter_oper_append (el : DynamicQuerySelectElement) (e : EntityID)
    (ops extra : List SelectOperator) : ∀ k, k ≤ ops.length →
    ({ el with opers := ops ++ extra } : DynamicQuerySelectElement)._filter_satisfied_with_oper
        e k =
      ({ el with opers := ops } : DynamicQuerySelectElement)._filter_satisfied_with_oper e k := by
  intro k
  induction k with
  | zero => intro _; rfl
  | succ k ih =>
    intro hk
    have hget : (ops ++ extra)[k]? = ops[k]? := List.getElem?_append_left (by omega)
    simp only [DynamicQuerySelectElement._filter_satisfied_with_oper, hget, ih (by omega)]

theorem filter_without_last (el : DynamicQuerySelectElement) (s : StorageBase) (e : EntityID)
    (ops : List SelectOperator) (hs : el.storage = some s) :
    ({ el with opers := ops ++ [SelectOperator.WITHOUT] } :
        DynamicQuerySelectElement).filter_satisfied e =
      !({ el with opers := ops } : DynamicQuerySelectElement).filter_satisfied e := by
  cases el with
  | mk id name storage mutability fetch_enabled changed opers container listening =>
    simp only at hs
    subst hs
    have h := filter_oper_append
      ({ id := id, name := name, storage := some s, mutability := mutability,
         fetch_enabled := fetch_enabled, changed := changed, opers := opers,
         container := container, listening := listening } : DynamicQuerySelectElement)
      e ops [SelectOperator.WITHOUT] ops.length (le_refl _)
    simp only at h
    simp only [DynamicQuerySelectElement.filter_satisfied, List.length_append,
      List.length_singleton, DynamicQuerySelectElement._filter_satisfied_with_oper,
      List.getElem?_concat_length, h]
    cases DynamicQuerySelectElement._filter_satisfied_with_oper
      { id := id, name := name, storage := some s, mutability := mutability,
        fetch_enabled := fetch_enabled, changed := changed, opers := ops,
        container := container, listening := listening } e ops.length <;> rfl

/-- C11: for an element with bound storage whose chain is a non-empty `ops`
followed by `WITHOUT`, the filter is the negation of the filter of the chain
`ops`; for the chain `WITH, WITHOUT` it is the negation of `storage.has`; and
`WITHOUT` appended twice gives the filter of `ops` back. -/
theorem C11_without_negates (el : DynamicQuerySelectElement) (s : StorageBase) (e : EntityID)
    (ops : List SelectOperator) (hs : el.storage = some s) (_hne : ops ≠ []) :
    ({ el with opers := ops ++ [SelectOperator.WITHOUT] } :
        DynamicQuerySelectElement).filter_satisfied e =
      (!({ el with opers := ops } : DynamicQuerySelectElement).filter_satisfied e) ∧
    ({ el with opers := [SelectOperator.WITH, SelectOperator.WITHOUT] } :
        DynamicQuerySelectElement).filter_satisfied e = (!s.has e) ∧
    ({ el with opers := ops ++ [SelectOperator.WITHOUT, SelectOperator.WITHOUT] } :
        DynamicQuerySelectElement).filter_satisfied e =
      ({ el with opers := ops } : DynamicQuerySelectElement).filter_satisfied e := by
  refine ⟨filter_without_last el s e ops hs, ?_, ?_⟩
  · have h := filter_without_last el s e [SelectOperator.WITH] hs
    simp only [List.singleton_append] at h
    rw [h]
    simp [DynamicQuerySelectElement.filter_satisfied,
      DynamicQuerySelectElement._filter_satisfied_with_oper, hs]
  · have h1 := filter_without_last el s e (ops ++ [SelectOperator.WITHOUT]) hs
    have h2 := filter_without_last el s e ops hs
    simp only [List.append_assoc, List.singleton_append] at h1
    rw [h1, h2, Bool.not_not]

/-- C11 at the `Without` element of scenario B (storage holds 2): entity 2 is
rejected and entity 1 is accepted. -/
theorem C11_witness :
    scenario_B.elements[1]? = some element_without ∧
    element_without.filter_satisfied 2 = (!StorageBase.has ⟨[2]⟩ 2) ∧
    element_without.filter_satisfied 2 = false ∧ element_without.filter_satisfied 1 = true :=
  ⟨by decide,
    (C11_without_negates element_without ⟨[2]⟩ 2 [SelectOperator.WITH] rfl (by decide)).2.1,
    by decide, by decide⟩

/-- C12: for an element whose chain ends in `MAYBE`, the filter is true for
every entity, whatever the storage holds and whether it is bound or not. -/
theorem C12_maybe_always_satisfied (el : DynamicQuerySelectElement) (e : EntityID)
    (hop : el.opers.getLast? = some SelectOperator.MAYBE) :
    el.filter_satisfied e = true := by
  obtain ⟨k, hk, hget⟩ := opers_last_getElem el _ hop
  simp [DynamicQuerySelectElement.filter_satisfied, hk,
    DynamicQuerySelectElement._filter_satisfied_with_oper, hget]

/-- C12 at the `Maybe` element of `three_selected` (storage holds 6): entity 4,
absent from the storage, satisfies the filter. -/
theorem C12_witness :
    three_selected.elements[2]? = some element_maybe ∧
    StorageBase.has ⟨[6]⟩ 4 = false ∧
    element_maybe.filter_satisfied 4 = true :=
  ⟨by decide, by decide, C12_maybe_always_satisfied element_maybe 4 (by decide)⟩

/-- C13: for an element with bound storage the candidate buffer is given by the
last operator: `WITH` gives the stored entities of the storage, `CHANGED` the
entities of the change set with its size as count, `WITHOUT` and `MAYBE` the
unbounded sentinel. With fewer than `UINT32_MAX` entities in the storage and in
the change set, the buffer is finite exactly when the element is
filter-determinant. -/
theorem C13_element_candidates (el : DynamicQuerySelectElement) (s : StorageBase)
    (hs : el.storage = some s) :
    (el.opers.getLast? = some SelectOperator.WITH →
      el.get_entities = ⟨s.stored.length, s.stored⟩) ∧
    (el.opers.getLast? = some SelectOperator.CHANGED →
      el.get_entities = ⟨el.changed.size, el.changed.dense⟩) ∧
    (el.opers.getLast? = some SelectOperator.WITHOUT →
      el.get_entities = EntitiesBuffer.unbounded) ∧
    (el.opers.getLast? = some SelectOperator.MAYBE →
      el.get_entities = EntitiesBuffer.unbounded) ∧
    (s.stored.length < UINT32_MAX → el.changed.size < UINT32_MAX →
      (el.get_entities.count < UINT32_MAX ↔ el.is_filter_determinant = true)) := by
  refine ⟨?_, ?_, ?_, ?_, ?_⟩
  · intro h
    simp [DynamicQuerySelectElement.get_entities, hs, h, StorageBase.get_stored_entities]
  · intro h
    simp [DynamicQuerySelectElement.get_entities, hs, h, EntityList.get_entities_ptr]
  · intro h
    simp [DynamicQuerySelectElement.get_entities, hs, h]
  · intro h
    simp [DynamicQuerySelectElement.get_entities, hs, h]
  · intro h1 h2
    unfold DynamicQuerySelectElement.get_entities DynamicQuerySelectElement.is_filter_determinant
    rw [hs]
    cases hop : el.opers.getLast? with
    | none => simp [EntitiesBuffer.unbounded]
    | some op =>
      cases op <;>
        simp [EntitiesBuffer.unbounded, StorageBase.get_stored_entities, h1, h2]

/-- C13 at four elements bound to a storage: the `With` element of scenario A,
the `Changed`, `Without` and `Maybe` elements. -/
theorem C13_witness :
    element_A.get_entities = ⟨3, [1, 3, 5]⟩ ∧
    element_changed.get_entities = ⟨1, [3]⟩ ∧
    element_without.get_entities = EntitiesBuffer.unbounded ∧
    element_maybe.get_entities = EntitiesBuffer.unbounded ∧
    (element_changed.get_entities.count < UINT32_MAX ↔
      element_changed.is_filter_determinant = true) ∧
    (element_without.get_entities.count < UINT32_MAX ↔
      element_without.is_filter_determinant = true) :=
  ⟨(C13_element_candidates element_A ⟨[1, 3, 5]⟩ rfl).1 (by decide),
    (C13_element_candidates element_changed ⟨[1, 3, 5]⟩ rfl).2.1 (by decide),
    (C13_element_candidates element_without ⟨[2]⟩ rfl).2.2.1 (by decide),
    (C13_element_candidates element_maybe ⟨[6]⟩ rfl).2.2.2.1 (by decide),
    (C13_element_candidates element_changed ⟨[1, 3, 5]⟩ rfl).2.2.2.2 (by decide) (by decide),
    (C13_element_candidates element_without ⟨[2]⟩ rfl).2.2.2.2 (by decide) (by decide)⟩

theorem select_unregistered (ecs : ECS) (q : DynamicQuery) (p_id : component_id)
    (p_mutable : Bool) (hc : q.can_change = true)
    (hu : ecs.verify_component_id p_id = false) :
    (q.select_component ecs p_id p_mutable).is_valid = false := by
  unfold DynamicQuery.select_component DynamicQuery._with_component DynamicQuery.is_valid
  by_cases hv : q.valid = true
  · simp [DynamicQuery.is_valid, hv, hc, hu]
  · have hv' : q.valid = false := by simpa using hv
    simp [DynamicQuery.is_valid, hv']

theorem select_duplicate (ecs : ECS) (q : DynamicQuery) (p_id : component_id)
    (p_mutable : Bool) (hr : ecs.verify_component_id p_id = true)
    (hf : (q.find_element_by_name (ecs.get_component_name p_id)).isSome = true) :
    q.select_component ecs p_id p_mutable = q := by
  unfold DynamicQuery.select_component DynamicQuery._with_component
  by_cases hv : q.is_valid = false
  · simp [hv]
  · by_cases hc : q.can_change = false
    · simp [hv, hc]
    · simp [hv, hc, hr, hf]

theorem insert_oper_unselected (q : DynamicQuery) (p_id : component_id) (oper : SelectOperator)
    (hf : q.find_element_by_component_id p_id = none) :
    q._insert_element_oper p_id oper = q := by
  unfold DynamicQuery._insert_element_oper
  rw [hf]

/-- C14, as the code has it: of the four build errors only the select of an
unregistered component id marks the query invalid (on a query that can still
change). The select of an already selected component and a modifier on a
component that is not selected return the query as it was, and `any` never
changes `is_valid`. -/
theorem C14_build_errors (ecs : ECS) (q : DynamicQuery) (p_id : component_id)
    (p_mutable : Bool) :
    (q.can_change = true → ecs.verify_component_id p_id = false →
      (q.select_component ecs p_id p_mutable).is_valid = false) ∧
    (ecs.verify_component_id p_id = true →
      (q.find_element_by_name (ecs.get_component_name p_id)).isSome = true →
      q.select_component ecs p_id p_mutable = q) ∧
    (q.find_element_by_component_id p_id = none →
      q.without p_id = q ∧ q.maybe p_id = q ∧ q.changed p_id = q) ∧
    (∀ p_ids, (q.any p_ids).is_valid = q.is_valid) :=
  ⟨select_unregistered ecs q p_id p_mutable, select_duplicate ecs q p_id p_mutable,
    fun hf => ⟨insert_oper_unselected q p_id _ hf, insert_oper_unselected q p_id _ hf,
      insert_oper_unselected q p_id _ hf⟩,
    fun p_ids => (any_keeps q p_ids).1⟩

/-- C14 at concrete queries: the select of the unregistered id 100 invalidates
a fresh query; a second select of 10 and a `without` of the unselected 11 leave
the query as it was. -/
theorem C14_witness :
    (DynamicQuery.fresh.select_component registry_small 100 false).is_valid = false ∧
    (DynamicQuery.fresh.select_component registry 10 false).select_component registry 10 true =
      DynamicQuery.fresh.select_component registry 10 false ∧
    DynamicQuery.fresh.without 11 = DynamicQuery.fresh :=
  ⟨(C14_build_errors registry_small DynamicQuery.fresh 100 false).1 (by decide) (by decide),
    (C14_build_errors registry (DynamicQuery.fresh.select_component registry 10 false) 10
      true).2.1 (by decide) (by decide),
    ((C14_build_errors registry DynamicQuery.fresh 11 false).2.2.1 (by decide)).1⟩

/-- C14 fails for three of the four build errors: after a second select of
component 10, after `without` on the unselected component 11, and after a second
`any` naming component 10 that the first `any` has claimed, the query is still
valid. -/
theorem C14_counterexample :
    ((DynamicQuery.fresh.select_component registry 10 false).select_component registry 10
      false).is_valid = true ∧
    (DynamicQuery.fresh.without 11).is_valid = true ∧
    (((DynamicQuery.fresh.select_component registry 10 false).any [10]).any [10]).is_valid =
      true := by
  decide

/-- C15 at the failing input: on the invalid query `invalid_built`, `without`
appends `WITHOUT` to the chain of component 10, and `any` sets the container of
component 10 to `ANY_CONTAINER` and adds a group; only `select_component` leaves
the query as it was. -/
theorem C15_mutators_on_invalid :
    invalid_built.is_valid = false ∧
    invalid_built.elements.map (fun el => (el.opers, el.container)) =
      [([SelectOperator.WITH], DynamicQueryElementContainer.WITH_CONTAINER)] ∧
    invalid_built.selects = [] ∧
    invalid_built.select_component registry_small 11 false = invalid_built ∧
    (invalid_built.without 10).elements.map (fun el => el.opers) =
      [[SelectOperator.WITH, SelectOperator.WITHOUT]] ∧
    (invalid_built.any [10]).elements.map (fun el => el.container) =
      [DynamicQueryElementContainer.ANY_CONTAINER] ∧
    (invalid_built.any [10]).selects = [DynamicQuerySelect.select_any [0] EntityList.empty] := by
  decide

/-- C18 at the failing input: `reset` called during the cycle of scenario A.
The elements and groups are gone and the query is valid and unlocked, but the
driver still holds 1, 3, 5 with count 3 and the accessor of the previous build
is kept: `next` returns true and records entity 1, `count` returns 3, and the
query is not the freshly constructed one. -/
theorem C18_reset_in_cycle :
    scenario_A.reset.elements = [] ∧ scenario_A.reset.selects = [] ∧
    scenario_A.reset.valid = true ∧ scenario_A.reset.can_change = true ∧
    scenario_A.reset.entities = ⟨3, [1, 3, 5]⟩ ∧
    scenario_A.reset.accessors = [⟨10, false, none⟩] ∧
    scenario_A.reset.next.2 = true ∧
    scenario_A.reset.next.1.current_entity = some 1 ∧
    scenario_A.reset.count = 3 ∧
    scenario_A.reset ≠ DynamicQuery.fresh := by
  decide

theorem modify_map_eq {β : Type} (g : DynamicQuerySelectElement → β)
    (f : DynamicQuerySelectElement → DynamicQuerySelectElement) (hg : ∀ x, g (f x) = g x)
    (l : List DynamicQuerySelectElement) (k : Nat) : (l.modify f k).map g = l.map g := by
  apply List.ext_getElem?
  intro m
  rw [List.getElem?_map, List.getElem?_map, List.getElem?_modify]
  cases l[m]? with
  | none => rfl
  | some a =>
    by_cases hkm : k = m
    · simp [hkm, hg]
    · simp [hkm]

theorem mem_modify (f : DynamicQuerySelectElement → DynamicQuerySelectElement)
    (l : List DynamicQuerySelectElement) (k : Nat) (y : DynamicQuerySelectElement)
    (hy : y ∈ l.modify f k) : y ∈ l ∨ ∃ x ∈ l, y = f x := by
  obtain ⟨m, hm⟩ := List.mem_iff_getElem?.1 hy
  rw [List.getElem?_modify] at hm
  cases hl : l[m]? with
  | none => simp [hl] at hm
  | some a =>
    have ha : a ∈ l := List.getElem?_mem hl
    by_cases hkm : k = m
    · simp [hl, hkm] at hm
      exact Or.inr ⟨a, ha, hm.symm⟩
    · simp [hl, hkm] at hm
      exact Or.inl (hm ▸ ha)

theorem initiate_members_map {β : Type} (g : DynamicQuerySelectElement → β) (w : World)
    (hg : ∀ x, g (x.initiate_process w) = g x) (idxs : List Nat) :
    ∀ els, (DynamicQuerySelect.initiate_members w idxs els).map g = els.map g := by
  induction idxs with
  | nil => intro els; rfl
  | cons k rest ih =>
    intro els
    simp only [DynamicQuerySelect.initiate_members]
    rw [ih, modify_map_eq g _ hg]

theorem conclude_members_map {β : Type} (g : DynamicQuerySelectElement → β)
    (hg : ∀ x, g x.conclude_process = g x) (idxs : List Nat) :
    ∀ els, (DynamicQuerySelect.conclude_members idxs els).map g = els.map g := by
  induction idxs with
  | nil => intro els; rfl
  | cons k rest ih =>
    intro els
    simp only [DynamicQuerySelect.conclude_members]
    rw [ih, modify_map_eq g _ hg]

theorem initiate_selects_map {β : Type} (g : DynamicQuerySelectElement → β) (w : World)
    (hg : ∀ x, g (x.initiate_process w) = g x) (gs : List DynamicQuerySelect) :
    ∀ els e, (DynamicQuery.initiate_selects w gs els e).2.1.map g = els.map g := by
  induction gs with
  | nil => intro els e; rfl
  | cons s rest ih =>
    intro els e
    simp only [DynamicQuery.initiate_selects]
    rw [ih]
    exact initiate_members_map g w hg _ els

theorem conclude_selects_map {β : Type} (g : DynamicQuerySelectElement → β)
    (hg : ∀ x, g x.conclude_process = g x) (gs : List DynamicQuerySelect) :
    ∀ els, (DynamicQuery.conclude_selects gs els).map g = els.map g := by
  induction gs with
  | nil => intro els; rfl
  | cons s rest ih =>
    intro els
    simp only [DynamicQuery.conclude_selects]
    rw [ih]
    exact conclude_members_map g hg _ els

theorem any_claim_loop_map {β : Type} (g : DynamicQuerySelectElement → β)
    (hg : ∀ x : DynamicQuerySelectElement,
      g { x with container := DynamicQueryElementContainer.ANY_CONTAINER } = g x)
    (ids : List component_id) :
    ∀ els, (DynamicQuery.any_claim_loop ids els).1.map g = els.map g := by
  induction ids with
  | nil => intro els; rfl
  | cons p_id rest ih =>
    intro els
    unfold DynamicQuery.any_claim_loop
    split
    · rfl
    · split
      · rfl
      · split
        · rfl
        · rw [ih, modify_map_eq g _ hg]

theorem any_elements_map {β : Type} (g : DynamicQuerySelectElement → β)
    (hg : ∀ x : DynamicQuerySelectElement,
      g { x with container := DynamicQueryElementContainer.ANY_CONTAINER } = g x)
    (q : DynamicQuery) (ids : List component_id) :
    (q.any ids).elements.map g = q.elements.map g := by
  have h := any_claim_loop_map g hg ids q.elements
  unfold DynamicQuery.any
  split
  · rename_i els heq
    rw [heq] at h
    exact h
  · rename_i els heq
    rw [heq] at h
    exact h

theorem prepare_world_elements_map {β : Type} (g : DynamicQuerySelectElement → β) (w : World)
    (hg : ∀ x, g (x.prepare_world w) = g x) (q : DynamicQuery) :
    (q.prepare_world w).elements.map g = q.elements.map g := by
  unfold DynamicQuery.prepare_world
  split
  · rfl
  · split
    · rfl
    · simp only [List.map_map]
      apply List.map_congr_left
      intro x _
      exact hg x

theorem initiate_process_elements_map {β : Type} (g : DynamicQuerySelectElement → β)
    (w : World) (hg1 : ∀ x, g (x.prepare_world w) = g x)
    (hg2 : ∀ x, g (x.initiate_process w) = g x) (q : DynamicQuery) :
    (q.initiate_process w).elements.map g = q.elements.map g := by
  have hp := prepare_world_elements_map g w hg1 q
  unfold DynamicQuery.initiate_process
  simp only
  split
  · exact hp
  · split
    · simp only
      rw [initiate_selects_map g w hg2]
      exact hp
    · simp only
      rw [initiate_selects_map g w hg2]
      exact hp

theorem next_loop_keeps (fuel : Nat) : ∀ q : DynamicQuery,
    (DynamicQuery.next_loop fuel q).1.elements = q.elements ∧
    (DynamicQuery.next_loop fuel q).1.selects = q.selects ∧
    (DynamicQuery.next_loop fuel q).1.entities = q.entities ∧
    (DynamicQuery.next_loop fuel q).1.valid = q.valid ∧
    (DynamicQuery.next_loop fuel q).1.can_change = q.can_change := by
  induction fuel with
  | zero => intro q; exact ⟨rfl, rfl, rfl, rfl, rfl⟩
  | succ fuel ih =>
    intro q
    simp only [DynamicQuery.next_loop]
    split
    · split
      · exact ⟨rfl, rfl, rfl, rfl, rfl⟩
      · exact ih _
    · exact ⟨rfl, rfl, rfl, rfl, rfl⟩

theorem next_keeps (q : DynamicQuery) :
    q.next.1.elements = q.elements ∧ q.next.1.selects = q.selects ∧
    q.next.1.entities = q.entities ∧ q.next.1.valid = q.valid ∧
    q.next.1.can_change = q.can_change :=
  next_loop_keeps _ q

theorem selection_initiate (w : World) (x : DynamicQuerySelectElement) :
    (x.initiate_process w).selection = x.selection := rfl

theorem selection_conclude (x : DynamicQuerySelectElement) :
    x.conclude_process.selection = x.selection := rfl

theorem selection_prepare (w : World) (x : DynamicQuerySelectElement) :
    (x.prepare_world w).selection = x.selection := by
  unfold DynamicQuerySelectElement.prepare_world
  split <;> rfl

theorem with_component_elements (ecs : ECS) (q : DynamicQuery) (p_id : component_id)
    (p_mutable : Bool) :
    (q._with_component ecs p_id p_mutable).elements = q.elements ∨
    (DynamicQuery.find_element_by_name_loop (ecs.get_component_name p_id) q.elements 0 = none ∧
      (q._with_component ecs p_id p_mutable).elements = q.elements ++
        [{ id := p_id, name := ecs.get_component_name p_id, storage := none,
           mutability := p_mutable, fetch_enabled := true, changed := EntityList.empty,
           opers := [SelectOperator.WITH],
           container := DynamicQueryElementContainer.WITH_CONTAINER, listening := false }]) := by
  unfold DynamicQuery._with_component
  split
  · exact Or.inl rfl
  · split
    · exact Or.inl rfl
    · split
      · exact Or.inl rfl
      · split
        · exact Or.inl rfl
        · rename_i hf
          refine Or.inr ⟨?_, rfl⟩
          unfold DynamicQuery.find_element_by_name at hf
          cases h : DynamicQuery.find_element_by_name_loop (ecs.get_component_name p_id)
            q.elements 0 with
          | none => rfl
          | some k => simp [h] at hf

theorem insert_oper_elements (q : DynamicQuery) (p_id : component_id) (oper : SelectOperator) :
    (q._insert_element_oper p_id oper).elements = q.elements ∨
    ∃ k, (q._insert_element_oper p_id oper).elements =
      q.elements.modify (fun el => { el with opers := el.opers ++ [oper] }) k := by
  unfold DynamicQuery._insert_element_oper
  split
  · exact Or.inl rfl
  · rename_i k _
    exact Or.inr ⟨k, rfl⟩

/-- An invariant of the element vector that holds of the empty vector, depends
only on the selections of the elements, and is kept by a successful select and
by the append of a modifier, holds after every sequence of operations. -/
theorem run_invariant (ecs : ECS) (I : List DynamicQuerySelectElement → Prop)
    (h_nil : I [])
    (h_sel : ∀ els els' : List DynamicQuerySelectElement,
      els'.map (fun el => el.selection) = els.map (fun el => el.selection) → I els → I els')
    (h_select : ∀ (els : List DynamicQuerySelectElement) (p_id : component_id)
      (p_mutable : Bool), I els →
      DynamicQuery.find_element_by_name_loop (ecs.get_component_name p_id) els 0 = none →
      I (els ++
        [{ id := p_id, name := ecs.get_component_name p_id, storage := none,
           mutability := p_mutable, fetch_enabled := true, changed := EntityList.empty,
           opers := [SelectOperator.WITH],
           container := DynamicQueryElementContainer.WITH_CONTAINER, listening := false }]))
    (h_oper : ∀ (els : List DynamicQuerySelectElement) (k : Nat) (oper : SelectOperator),
      oper ≠ SelectOperator.WITH → I els →
      I (els.modify (fun el => { el with opers := el.opers ++ [oper] }) k)) :
    ∀ (ops : List Operation) (q : DynamicQuery), I q.elements → I (run ecs ops q).elements := by
  have hsel : ∀ (q : DynamicQuery) (p_id : component_id) (p_mutable : Bool),
      I q.elements → I (q._with_component ecs p_id p_mutable).elements := by
    intro q p_id p_mutable hI
    rcases with_component_elements ecs q p_id p_mutable with h | ⟨hf, h⟩
    · rw [h]; exact hI
    · rw [h]; exact h_select _ _ _ hI hf
  have hop : ∀ (q : DynamicQuery) (p_id : component_id) (oper : SelectOperator),
      oper ≠ SelectOperator.WITH → I q.elements →
      I (q._insert_element_oper p_id oper).elements := by
    intro q p_id oper hne hI
    rcases insert_oper_elements q p_id oper with h | ⟨k, h⟩
    · rw [h]; exact hI
    · rw [h]; exact h_oper _ _ _ hne hI
  have hstep : ∀ (op : Operation) (q : DynamicQuery), I q.elements →
      I (op.apply ecs q).elements := by
    intro op q hI
    cases op with
    | set_space p_space => exact hI
    | select_component p_id p_mutable => exact hsel q p_id p_mutable hI
    | without p_id => exact hop q p_id _ (by decide) hI
    | maybe p_id => exact hop q p_id _ (by decide) hI
    | changed p_id => exact hop q p_id _ (by decide) hI
    | any p_ids =>
      exact h_sel _ _ (any_elements_map (fun el => el.selection) (fun _ => rfl) q p_ids) hI
    | with_component p_id p_mutable => exact hsel q p_id p_mutable hI
    | maybe_component p_id p_mutable =>
      exact hop _ p_id _ (by decide) (hsel q p_id p_mutable hI)
    | changed_component p_id p_mutable =>
      exact hop _ p_id _ (by decide) (hsel q p_id p_mutable hI)
    | not_component p_id => exact hop _ p_id _ (by decide) (hsel q p_id false hI)
    | reset => exact h_nil
    | prepare_world p_world =>
      exact h_sel _ _ (prepare_world_elements_map (fun el => el.selection) p_world
        (selection_prepare p_world) q) hI
    | initiate_process p_world =>
      exact h_sel _ _ (initiate_process_elements_map (fun el => el.selection) p_world
        (selection_prepare p_world) (selection_initiate p_world) q) hI
    | conclude_process =>
      exact h_sel _ _ (conclude_selects_map (fun el => el.selection) selection_conclude
        q.selects q.elements) hI
    | release_world => exact hI
    | next =>
      have h : (Operation.apply ecs q Operation.next).elements = q.elements := (next_keeps q).1
      rw [h]; exact hI
    | fetch p_entity_id => exact hI
  intro ops
  induction ops with
  | nil => intro q hI; exact hI
  | cons op ops ih => intro q hI; exact ih _ (hstep op q hI)

/-- C20, as the code has it: in every state reached from a freshly constructed
query by any sequence of operations, every element's chain begins with `WITH`
and every further operator is `WITHOUT`, `CHANGED` or `MAYBE` (so the chain is
not empty and holds `WITH` at position 0 only); the number of further operators
is not bounded. -/
theorem C20_chain_shape (ecs : ECS) (ops : List Operation) :
    ∀ el ∈ (run ecs ops DynamicQuery.fresh).elements,
      ∃ rest, el.opers = SelectOperator.WITH :: rest ∧
        ∀ op ∈ rest, op = SelectOperator.WITHOUT ∨ op = SelectOperator.CHANGED ∨
          op = SelectOperator.MAYBE := by
  apply run_invariant ecs
    (fun els => ∀ el ∈ els, ∃ rest, el.opers = SelectOperator.WITH :: rest ∧
      ∀ op ∈ rest, op = SelectOperator.WITHOUT ∨ op = SelectOperator.CHANGED ∨
        op = SelectOperator.MAYBE)
  · intro el hel
    simp at hel
  · intro els els' hmap hI el' hel'
    have hm : el'.selection ∈ els'.map (fun el => el.selection) :=
      List.mem_map.2 ⟨el', hel', rfl⟩
    rw [hmap] at hm
    obtain ⟨el, hel, heq⟩ := List.mem_map.1 hm
    have hop : el.opers = el'.opers := by
      have := congrArg (fun s => s.2.2.2) heq
      exact this
    rw [← hop]
    exact hI el hel
  · intro els p_id p_mutable hI _ el hel
    rcases List.mem_append.1 hel with h | h
    · exact hI el h
    · simp at h
      subst h
      exact ⟨[], rfl, by simp⟩
  · intro els k oper hne hI el hel
    rcases mem_modify _ els k el hel with h | ⟨x, hx, rfl⟩
    · exact hI el h
    · obtain ⟨rest, hr, hall⟩ := hI x hx
      refine ⟨rest ++ [oper], by simp [hr], ?_⟩
      intro op hop
      rcases List.mem_append.1 hop with h | h
      · exact hall op h
      · simp at h
        subst h
        cases op <;> simp at hne ⊢
  · intro el hel
    simp [DynamicQuery.fresh] at hel

/-- C20 at the element left by `select_component`, `without`, `maybe` on
component 10. -/
theorem C20_witness :
    (run registry [Operation.select_component 10 false, Operation.without 10,
      Operation.maybe 10] DynamicQuery.fresh).elements = [element_two_modifiers] ∧
    ∃ rest, element_two_modifiers.opers = SelectOperator.WITH :: rest ∧
      ∀ op ∈ rest, op = SelectOperator.WITHOUT ∨ op = SelectOperator.CHANGED ∨
        op = SelectOperator.MAYBE :=
  ⟨by decide,
    C20_chain_shape registry [Operation.select_component 10 false, Operation.without 10,
      Operation.maybe 10] element_two_modifiers (by decide)⟩

/-- C20 fails on the number of further operators: after `select_component`,
`without` and `maybe` on component 10 the chain of the element is
`WITH, WITHOUT, MAYBE`, with two operators after `WITH`. -/
theorem C20_counterexample :
    (run registry [Operation.select_component 10 false, Operation.without 10,
      Operation.maybe 10] DynamicQuery.fresh).elements.map (fun el => el.opers) =
      [[SelectOperator.WITH, SelectOperator.WITHOUT, SelectOperator.MAYBE]] := by
  decide

theorem find_name_none (n : StringName) : ∀ (els : List DynamicQuerySelectElement) (i : Nat),
    DynamicQuery.find_element_by_name_loop n els i = none → ∀ el ∈ els, el.name ≠ n := by
  intro els
  induction els with
  | nil => intro i _ el hel; simp at hel
  | cons x xs ih =>
    intro i h el hel
    simp only [DynamicQuery.find_element_by_name_loop] at h
    by_cases hx : x.name = n
    · simp [hx] at h
    · simp only [hx, if_false] at h
      rcases List.mem_cons.1 hel with rfl | hel
      · exact hx
      · exact ih _ h el hel

theorem set_insert_mem (s : List component_id) (a x : component_id) :
    x ∈ set_insert s a ↔ x ∈ s ∨ x = a := by
  unfold set_insert
  by_cases h : a ∈ s
  · simp only [h, if_true]
    constructor
    · exact Or.inl
    · rintro (hx | rfl)
      · exact hx
      · exact h
  · simp [h]

theorem get_system_info_loop_spec (els : List DynamicQuerySelectElement) :
    ∀ info : SystemExeInfo,
      (∀ x, x ∈ (DynamicQuery.get_system_info_loop els info).mutable_components ↔
        x ∈ info.mutable_components ∨ ∃ el ∈ els, el.id = x ∧ el.mutability = true) ∧
      (∀ x, x ∈ (DynamicQuery.get_system_info_loop els info).immutable_components ↔
        x ∈ info.immutable_components ∨ ∃ el ∈ els, el.id = x ∧ el.mutability = false) := by
  induction els with
  | nil => intro info; simp [DynamicQuery.get_system_info_loop]
  | cons el rest ih =>
    intro info
    simp only [DynamicQuery.get_system_info_loop]
    by_cases hm : el.mutability = true
    · simp only [hm, if_true]
      obtain ⟨h1, h2⟩ := ih { info with
        mutable_components := set_insert info.mutable_components el.id }
      refine ⟨?_, ?_⟩
      · intro x
        rw [h1]
        simp only [set_insert_mem, List.mem_cons, exists_eq_or_imp, hm, and_true]
        constructor
        · rintro ((h | h) | h)
          · exact Or.inl h
          · exact Or.inr (Or.inl h.symm)
          · exact Or.inr (Or.inr h)
        · rintro (h | h | h)
          · exact Or.inl (Or.inl h)
          · exact Or.inl (Or.inr h.symm)
          · exact Or.inr h
      · intro x
        rw [h2]
        simp [hm]
    · have hm' : el.mutability = false := by simpa using hm
      simp only [hm', Bool.false_eq_true, if_false]
      obtain ⟨h1, h2⟩ := ih { info with
        immutable_components := set_insert info.immutable_components el.id }
      refine ⟨?_, ?_⟩
      · intro x
        rw [h1]
        simp [hm']
      · intro x
        rw [h2]
        simp only [set_insert_mem, List.mem_cons, exists_eq_or_imp, hm', and_true]
        constructor
        · rintro ((h | h) | h)
          · exact Or.inl h
          · exact Or.inr (Or.inl h.symm)
          · exact Or.inr (Or.inr h)
        · rintro (h | h | h)
          · exact Or.inl (Or.inl h)
          · exact Or.inl (Or.inr h.symm)
          · exact Or.inr h

/-- In every state reached from a freshly constructed query, every element is
named after its component id by the registry and no two elements share a
component id. -/
theorem reachable_ids_distinct (ecs : ECS) (ops : List Operation) :
    (∀ el ∈ (run ecs ops DynamicQuery.fresh).elements,
      el.name = ecs.get_component_name el.id) ∧
    ((run ecs ops DynamicQuery.fresh).elements.map (fun el => el.id)).Nodup := by
  have hkey : ∀ els els' : List DynamicQuerySelectElement,
      els'.map (fun el => (el.id, el.name)) = els.map (fun el => (el.id, el.name)) →
      ((∀ el ∈ els, el.name = ecs.get_component_name el.id) ∧
        (els.map (fun el => el.id)).Nodup) →
      ((∀ el ∈ els', el.name = ecs.get_component_name el.id) ∧
        (els'.map (fun el => el.id)).Nodup) := by
    intro els els' hmap hI
    refine ⟨?_, ?_⟩
    · intro el' hel'
      have hm : (el'.id, el'.name) ∈ els'.map (fun el => (el.id, el.name)) :=
        List.mem_map.2 ⟨el', hel', rfl⟩
      rw [hmap] at hm
      obtain ⟨el, hel, heq⟩ := List.mem_map.1 hm
      simp only [Prod.mk.injEq] at heq
      rw [← heq.1, ← heq.2]
      exact hI.1 el hel
    · have h1 : els'.map (fun el => el.id) =
          (els'.map (fun el => (el.id, el.name))).map Prod.fst := by
        rw [List.map_map]; rfl
      have h2 : els.map (fun el => el.id) =
          (els.map (fun el => (el.id, el.name))).map Prod.fst := by
        rw [List.map_map]; rfl
      rw [h1, hmap, ← h2]
      exact hI.2
  apply run_invariant ecs
    (fun els => (∀ el ∈ els, el.name = ecs.get_component_name el.id) ∧
      (els.map (fun el => el.id)).Nodup)
  · simp
  · intro els els' hmap hI
    apply hkey els els' ?_ hI
    have h := congrArg (List.map (fun s : component_id × StringName × Bool ×
      List SelectOperator => (s.1, s.2.1))) hmap
    simpa [List.map_map, DynamicQuerySelectElement.selection, Function.comp_def] using h
  · intro els p_id p_mutable hI hf
    have hnone := find_name_none _ els 0 hf
    refine ⟨?_, ?_⟩
    · intro el hel
      rcases List.mem_append.1 hel with h | h
      · exact hI.1 el h
      · simp at h
        subst h
        rfl
    · rw [List.map_append, List.nodup_append]
      refine ⟨hI.2, by simp, ?_⟩
      intro a ha hb
      simp at hb
      subst hb
      obtain ⟨el, hel, rfl⟩ := List.mem_map.1 ha
      exact hnone el hel (hI.1 el hel)
  · intro els k oper _ hI
    exact hkey els _ (modify_map_eq (fun el => (el.id, el.name))
      (fun el => { el with opers := el.opers ++ [oper] }) (fun _ => rfl) els k) hI
  · simp [DynamicQuery.fresh]

/-- C19: in every state reached from a freshly constructed query in which the
query is valid, `get_system_info` called with any output sets keeps what the
sets hold and adds the id of every element selected as mutable to the mutable
set and the id of every other element to the immutable set, and nothing else:
the id of an element is in the set of the other mutability after the call only
if it was there before. Called with empty output sets, the id of a mutable
element is in the mutable set and not in the immutable set, the id of every
other element is in the immutable set and not in the mutable set, the two sets
are disjoint and their union is the set of selected component ids. -/
theorem C19_access_sets (ecs : ECS) (ops : List Operation)
    (hv : (run ecs ops DynamicQuery.fresh).is_valid = true) :
    (∀ info : SystemExeInfo,
      (∀ x, x ∈ ((run ecs ops DynamicQuery.fresh).get_system_info info).mutable_components ↔
        x ∈ info.mutable_components ∨
          ∃ el ∈ (run ecs ops DynamicQuery.fresh).elements, el.id = x ∧ el.mutability = true) ∧
      (∀ x, x ∈ ((run ecs ops DynamicQuery.fresh).get_system_info info).immutable_components ↔
        x ∈ info.immutable_components ∨
          ∃ el ∈ (run ecs ops DynamicQuery.fresh).elements, el.id = x ∧ el.mutability = false) ∧
      (∀ el ∈ (run ecs ops DynamicQuery.fresh).elements,
        (el.mutability = true →
          el.id ∈ ((run ecs ops DynamicQuery.fresh).get_system_info info).mutable_components ∧
          (el.id ∈ ((run ecs ops DynamicQuery.fresh).get_system_info
              info).immutable_components ↔ el.id ∈ info.immutable_components)) ∧
        (el.mutability = false →
          el.id ∈ ((run ecs ops DynamicQuery.fresh).get_system_info
            info).immutable_components ∧
          (el.id ∈ ((run ecs ops DynamicQuery.fresh).get_system_info
              info).mutable_components ↔ el.id ∈ info.mutable_components)))) ∧
    (∀ el ∈ (run ecs ops DynamicQuery.fresh).elements,
      (el.mutability = true →
        el.id ∈ ((run ecs ops DynamicQuery.fresh).get_system_info ⟨[], []⟩).mutable_components ∧
        el.id ∉ ((run ecs ops DynamicQuery.fresh).get_system_info
          ⟨[], []⟩).immutable_components) ∧
      (el.mutability = false →
        el.id ∈ ((run ecs ops DynamicQuery.fresh).get_system_info
          ⟨[], []⟩).immutable_components ∧
        el.id ∉ ((run ecs ops DynamicQuery.fresh).get_system_info
          ⟨[], []⟩).mutable_components)) ∧
    (∀ x, x ∈ ((run ecs ops DynamicQuery.fresh).get_system_info ⟨[], []⟩).mutable_components →
      x ∉ ((run ecs ops DynamicQuery.fresh).get_system_info ⟨[], []⟩).immutable_components) ∧
    (∀ x,
      (x ∈ ((run ecs ops DynamicQuery.fresh).get_system_info ⟨[], []⟩).mutable_components ∨
        x ∈ ((run ecs ops DynamicQuery.fresh).get_system_info
          ⟨[], []⟩).immutable_components) ↔
      ∃ el ∈ (run ecs ops DynamicQuery.fresh).elements, el.id = x) := by
  obtain ⟨_, hnd⟩ := reachable_ids_distinct ecs ops
  have hinj := List.inj_on_of_nodup_map hnd
  have hinfo : ∀ info : SystemExeInfo, (run ecs ops DynamicQuery.fresh).get_system_info info =
      DynamicQuery.get_system_info_loop (run ecs ops DynamicQuery.fresh).elements info := by
    intro info
    unfold DynamicQuery.get_system_info
    simp [hv]
  have hgen : ∀ info : SystemExeInfo,
      (∀ x, x ∈ ((run ecs ops DynamicQuery.fresh).get_system_info info).mutable_components ↔
        x ∈ info.mutable_components ∨
          ∃ el ∈ (run ecs ops DynamicQuery.fresh).elements, el.id = x ∧ el.mutability = true) ∧
      (∀ x, x ∈ ((run ecs ops DynamicQuery.fresh).get_system_info info).immutable_components ↔
        x ∈ info.immutable_components ∨
          ∃ el ∈ (run ecs ops DynamicQuery.fresh).elements,
            el.id = x ∧ el.mutability = false) := by
    intro info
    rw [hinfo info]
    exact get_system_info_loop_spec (run ecs ops DynamicQuery.fresh).elements info
  have hone : ∀ info : SystemExeInfo, ∀ el ∈ (run ecs ops DynamicQuery.fresh).elements,
      (el.mutability = true →
        el.id ∈ ((run ecs ops DynamicQuery.fresh).get_system_info info).mutable_components ∧
        (el.id ∈ ((run ecs ops DynamicQuery.fresh).get_system_info
            info).immutable_components ↔ el.id ∈ info.immutable_components)) ∧
      (el.mutability = false →
        el.id ∈ ((run ecs ops DynamicQuery.fresh).get_system_info
          info).immutable_components ∧
        (el.id ∈ ((run ecs ops DynamicQuery.fresh).get_system_info
            info).mutable_components ↔ el.id ∈ info.mutable_components)) := by
    intro info el hel
    obtain ⟨h1, h2⟩ := hgen info
    refine ⟨?_, ?_⟩
    · intro hm
      refine ⟨(h1 el.id).2 (Or.inr ⟨el, hel, rfl, hm⟩), ?_⟩
      rw [h2]
      constructor
      · rintro (h | ⟨b, hb, hbx, hbm⟩)
        · exact h
        · have hab : b = el := hinj hb hel hbx
          subst hab
          rw [hm] at hbm
          cases hbm
      · exact Or.inl
    · intro hm
      refine ⟨(h2 el.id).2 (Or.inr ⟨el, hel, rfl, hm⟩), ?_⟩
      rw [h1]
      constructor
      · rintro (h | ⟨b, hb, hbx, hbm⟩)
        · exact h
        · have hab : b = el := hinj hb hel hbx
          subst hab
          rw [hm] at hbm
          cases hbm
      · exact Or.inl
  have hempty : ∀ el ∈ (run ecs ops DynamicQuery.fresh).elements,
      (el.mutability = true →
        el.id ∈ ((run ecs ops DynamicQuery.fresh).get_system_info ⟨[], []⟩).mutable_components ∧
        el.id ∉ ((run ecs ops DynamicQuery.fresh).get_system_info
          ⟨[], []⟩).immutable_components) ∧
      (el.mutability = false →
        el.id ∈ ((run ecs ops DynamicQuery.fresh).get_system_info
          ⟨[], []⟩).immutable_components ∧
        el.id ∉ ((run ecs ops DynamicQuery.fresh).get_system_info
          ⟨[], []⟩).mutable_components) := by
    intro el hel
    obtain ⟨ha, hb⟩ := hone ⟨[], []⟩ el hel
    refine ⟨fun hm => ⟨(ha hm).1, fun h => ?_⟩, fun hm => ⟨(hb hm).1, fun h => ?_⟩⟩
    · have := (ha hm).2.1 h
      simp at this
    · have := (hb hm).2.1 h
      simp at this
  refine ⟨fun info => ⟨(hgen info).1, (hgen info).2, hone info⟩, hempty, ?_, ?_⟩
  · intro x hx hx'
    obtain ⟨h1, h2⟩ := hgen ⟨[], []⟩
    rw [h1] at hx
    rw [h2] at hx'
    simp only [List.not_mem_nil, false_or] at hx hx'
    obtain ⟨a, ha, hax, ham⟩ := hx
    obtain ⟨b, hb, hbx, hbm⟩ := hx'
    have hab : a = b := hinj ha hb (hax.trans hbx.symm)
    subst hab
    rw [ham] at hbm
    cases hbm
  · intro x
    obtain ⟨h1, h2⟩ := hgen ⟨[], []⟩
    rw [h1, h2]
    simp only [List.not_mem_nil, false_or]
    constructor
    · rintro (⟨el, hel, hx, _⟩ | ⟨el, hel, hx, _⟩)
      · exact ⟨el, hel, hx⟩
      · exact ⟨el, hel, hx⟩
    · rintro ⟨el, hel, hx⟩
      cases hm : el.mutability
      · exact Or.inr ⟨el, hel, hx, hm⟩
      · exact Or.inl ⟨el, hel, hx, hm⟩

/-- C19 at the query that selects 10 as mutable and 11 as immutable: called with
empty sets the mutable set is 10 and the immutable set is 11; called with the
sets 7 and 8 the result is 7, 10 and 8, 11, and 9 is in the mutable set of the
result only if it was in the mutable set given. -/
theorem C19_witness :
    (run registry [Operation.select_component 10 true, Operation.select_component 11 false]
      DynamicQuery.fresh).get_system_info ⟨[], []⟩ = ⟨[10], [11]⟩ ∧
    (run registry [Operation.select_component 10 true, Operation.select_component 11 false]
      DynamicQuery.fresh).get_system_info ⟨[7], [8]⟩ = ⟨[7, 10], [8, 11]⟩ ∧
    (∀ x, x ∈ ((run registry [Operation.select_component 10 true,
        Operation.select_component 11 false]
        DynamicQuery.fresh).get_system_info ⟨[7], [8]⟩).mutable_components ↔
      x ∈ (⟨[7], [8]⟩ : SystemExeInfo).mutable_components ∨
        ∃ el ∈ (run registry [Operation.select_component 10 true,
          Operation.select_component 11 false] DynamicQuery.fresh).elements,
          el.id = x ∧ el.mutability = true) ∧
    ∀ x, x ∈ ((run registry [Operation.select_component 10 true,
        Operation.select_component 11 false]
        DynamicQuery.fresh).get_system_info ⟨[], []⟩).mutable_components →
      x ∉ ((run registry [Operation.select_component 10 true,
        Operation.select_component 11 false]
        DynamicQuery.fresh).get_system_info ⟨[], []⟩).immutable_components :=
  ⟨by decide, by decide,
    ((C19_access_sets registry [Operation.select_component 10 true,
      Operation.select_component 11 false] (by decide)).1 ⟨[7], [8]⟩).1,
    (C19_access_sets registry [Operation.select_component 10 true,
      Operation.select_component 11 false] (by decide)).2.2.1⟩

theorem prepare_world_locked (q : DynamicQuery) (w : World) (hl : q.can_change = false) :
    q.prepare_world w = q := by
  unfold DynamicQuery.prepare_world
  simp [hl]

theorem prepare_world_state (q : DynamicQuery) (w : World) :
    (q.prepare_world w).valid = false ∨
      ((q.prepare_world w).valid = true ∧ (q.prepare_world w).can_change = false) := by
  by_cases hl : q.can_change = false
  · rw [prepare_world_locked q w hl]
    cases hv : q.valid
    · exact Or.inl rfl
    · exact Or.inr ⟨rfl, hl⟩
  · cases hv : q.valid
    · rw [prepare_world_invalid q w hv]
      exact Or.inl hv
    · right
      unfold DynamicQuery.prepare_world
      simp [hl, hv, DynamicQuery.is_valid]

theorem initiate_process_prepared (q : DynamicQuery) (w : World) :
    q.initiate_process w = (q.prepare_world w).initiate_process w := by
  have hidem : (q.prepare_world w).prepare_world w = q.prepare_world w := by
    rcases prepare_world_state q w with h | ⟨_, h⟩
    · exact prepare_world_invalid _ w h
    · exact prepare_world_locked _ w h
  unfold DynamicQuery.initiate_process
  rw [hidem]

/-- C23 at the failing input: components 10 and 12 are selected and `any` is
called with 10 and the unselected 11, or with 10 twice. The call fails and adds
no group, but the container of component 10 has been set to `ANY_CONTAINER`.
At the next `initiate_process` component 10 is in no group: the conjunctive
group holds component 12 alone and `has` accepts entity 2, which has no
component 10, while the query without the failed call rejects it. -/
theorem C23_any_fails_half_way :
    two_selected.elements.map (fun el => (el.id, el.container)) =
      [(10, DynamicQueryElementContainer.WITH_CONTAINER),
        (12, DynamicQueryElementContainer.WITH_CONTAINER)] ∧
    (two_selected.any [10, 11]).selects = two_selected.selects ∧
    (two_selected.any [10, 11]).elements.map (fun el => (el.id, el.container)) =
      [(10, DynamicQueryElementContainer.ANY_CONTAINER),
        (12, DynamicQueryElementContainer.WITH_CONTAINER)] ∧
    (two_selected.any [10, 10]).selects = two_selected.selects ∧
    (two_selected.any [10, 10]).elements.map (fun el => (el.id, el.container)) =
      [(10, DynamicQueryElementContainer.ANY_CONTAINER),
        (12, DynamicQueryElementContainer.WITH_CONTAINER)] ∧
    two_selected.any [10, 11] ≠ two_selected ∧
    ((two_selected.any [10, 11]).initiate_process world_pair).selects =
      [DynamicQuerySelect.select_with [1]] ∧
    ((two_selected.any [10, 11]).initiate_process world_pair).has 2 = true ∧
    (two_selected.initiate_process world_pair).has 2 = false := by
  decide

theorem fetch_loop_length (e : EntityID) (sp : Space) :
    ∀ (els : List DynamicQuerySelectElement) (accs : List ComponentDynamicExposer),
      accs.length = els.length → (DynamicQuery.fetch_loop e sp els accs).length = accs.length := by
  intro els
  induction els with
  | nil => intro accs _; rfl
  | cons x xs ih =>
    intro accs h
    cases accs with
    | nil => simp at h
    | cons a as =>
      simp only [DynamicQuery.fetch_loop, List.length_cons]
      rw [ih as (by simpa using h)]

theorem fetch_accessors_length (q : DynamicQuery) (e : EntityID)
    (h : q.accessors.length = q.elements.length) :
    (q.fetch e).accessors.length = q.accessors.length :=
  fetch_loop_length e q.space q.elements q.accessors h

theorem next_loop_accessors (fuel : Nat) : ∀ q : DynamicQuery,
    q.accessors.length = q.elements.length →
    (DynamicQuery.next_loop fuel q).1.accessors.length = q.accessors.length := by
  induction fuel with
  | zero => intro q _; rfl
  | succ fuel ih =>
    intro q h
    simp only [DynamicQuery.next_loop]
    split
    · split
      · exact fetch_accessors_length _ _ h
      · exact ih _ h
    · rfl

theorem with_component_locked (ecs : ECS) (q : DynamicQuery) (p_id : component_id)
    (p_mutable : Bool) :
    (q._with_component ecs p_id p_mutable).can_change = q.can_change ∧
    (q.can_change = false → q._with_component ecs p_id p_mutable = q) := by
  unfold DynamicQuery._with_component
  refine ⟨?_, ?_⟩
  · split
    · rfl
    · split
      · rfl
      · split
        · rfl
        · split <;> rfl
  · intro hl
    split
    · rfl
    · simp [hl]

theorem insert_oper_lengths (q : DynamicQuery) (p_id : component_id) (oper : SelectOperator) :
    (q._insert_element_oper p_id oper).can_change = q.can_change ∧
    (q._insert_element_oper p_id oper).accessors = q.accessors ∧
    (q._insert_element_oper p_id oper).elements.length = q.elements.length := by
  unfold DynamicQuery._insert_element_oper
  split
  · exact ⟨rfl, rfl, rfl⟩
  · exact ⟨rfl, rfl, List.length_modify _ _ _⟩

theorem any_lengths (q : DynamicQuery) (p_ids : List component_id) :
    (q.any p_ids).can_change = q.can_change ∧ (q.any p_ids).accessors = q.accessors ∧
    (q.any p_ids).elements.length = q.elements.length := by
  have hlen : (q.any p_ids).elements.length = q.elements.length := by
    have h := congrArg List.length
      (any_elements_map (fun _ => ()) (fun _ => rfl) q p_ids)
    simpa using h
  refine ⟨?_, ?_, hlen⟩
  · unfold DynamicQuery.any
    split <;> rfl
  · unfold DynamicQuery.any
    split <;> rfl

theorem prepare_world_lengths (q : DynamicQuery) (w : World) :
    q.prepare_world w = q ∨
      ((q.prepare_world w).accessors.length = (q.prepare_world w).elements.length) := by
  unfold DynamicQuery.prepare_world
  split
  · exact Or.inl rfl
  · split
    · exact Or.inl rfl
    · right
      simp [DynamicQuery.resize_accessors]
      omega

theorem initiate_process_lengths (q : DynamicQuery) (w : World) :
    (q.initiate_process w).can_change = (q.prepare_world w).can_change ∧
    (q.initiate_process w).accessors = (q.prepare_world w).accessors ∧
    (q.initiate_process w).elements.length = (q.prepare_world w).elements.length := by
  have hlen : (q.initiate_process w).elements.length = (q.prepare_world w).elements.length := by
    rw [initiate_process_prepared q w]
    have h := congrArg List.length
      (initiate_process_elements_map (fun _ => ()) w (fun _ => rfl) (fun _ => rfl)
        (q.prepare_world w))
    simpa using h
  refine ⟨?_, ?_, hlen⟩
  · unfold DynamicQuery.initiate_process
    simp only
    split
    · rfl
    · split <;> rfl
  · unfold DynamicQuery.initiate_process
    simp only
    split
    · rfl
    · split <;> rfl

theorem locked_step (ecs : ECS) (op : Operation) (q : DynamicQuery)
    (hI : q.can_change = false → q.accessors.length = q.elements.length) :
    (op.apply ecs q).can_change = false →
      (op.apply ecs q).accessors.length = (op.apply ecs q).elements.length := by
  have hsel : ∀ (q : DynamicQuery) (p_id : component_id) (p_mutable : Bool),
      (q.can_change = false → q.accessors.length = q.elements.length) →
      (q._with_component ecs p_id p_mutable).can_change = false →
      (q._with_component ecs p_id p_mutable).accessors.length =
        (q._with_component ecs p_id p_mutable).elements.length := by
    intro q p_id p_mutable hq hl
    obtain ⟨h1, h2⟩ := with_component_locked ecs q p_id p_mutable
    rw [h1] at hl
    rw [h2 hl]
    exact hq hl
  have hop : ∀ (q : DynamicQuery) (p_id : component_id) (oper : SelectOperator),
      (q.can_change = false → q.accessors.length = q.elements.length) →
      (q._insert_element_oper p_id oper).can_change = false →
      (q._insert_element_oper p_id oper).accessors.length =
        (q._insert_element_oper p_id oper).elements.length := by
    intro q p_id oper hq hl
    obtain ⟨h1, h2, h3⟩ := insert_oper_lengths q p_id oper
    rw [h1] at hl
    rw [h2, h3]
    exact hq hl
  cases op with
  | set_space p_space => exact hI
  | select_component p_id p_mutable => exact hsel q p_id p_mutable hI
  | without p_id => exact hop q p_id _ hI
  | maybe p_id => exact hop q p_id _ hI
  | changed p_id => exact hop q p_id _ hI
  | any p_ids =>
    intro hl
    obtain ⟨h1, h2, h3⟩ := any_lengths q p_ids
    have hl' : (q.any p_ids).can_change = false := hl
    rw [h1] at hl'
    show (q.any p_ids).accessors.length = (q.any p_ids).elements.length
    rw [h2, h3]
    exact hI hl'
  | with_component p_id p_mutable => exact hsel q p_id p_mutable hI
  | maybe_component p_id p_mutable => exact hop _ p_id _ (hsel q p_id p_mutable hI)
  | changed_component p_id p_mutable => exact hop _ p_id _ (hsel q p_id p_mutable hI)
  | not_component p_id => exact hop _ p_id _ (hsel q p_id false hI)
  | reset =>
    intro hl
    cases hl
  | prepare_world p_world =>
    intro hl
    show (q.prepare_world p_world).accessors.length = (q.prepare_world p_world).elements.length
    rcases prepare_world_lengths q p_world with h | h
    · have hl' : (q.prepare_world p_world).can_change = false := hl
      rw [h] at hl' ⊢
      exact hI hl'
    · exact h
  | initiate_process p_world =>
    intro hl
    obtain ⟨h1, h2, h3⟩ := initiate_process_lengths q p_world
    have hl' : (q.initiate_process p_world).can_change = false := hl
    rw [h1] at hl'
    show (q.initiate_process p_world).accessors.length =
      (q.initiate_process p_world).elements.length
    rw [h2, h3]
    rcases prepare_world_lengths q p_world with h | h
    · rw [h] at hl' ⊢
      exact hI hl'
    · exact h
  | conclude_process =>
    intro hl
    have hlen : q.conclude_process.elements.length = q.elements.length := by
      have h := congrArg List.length
        (conclude_selects_map (fun _ => ()) (fun _ => rfl) q.selects q.elements)
      simpa using h
    show q.conclude_process.accessors.length = q.conclude_process.elements.length
    rw [hlen]
    exact hI hl
  | release_world => exact hI
  | next =>
    intro hl
    have hk := next_keeps q
    have hl' : q.next.1.can_change = false := hl
    rw [hk.2.2.2.2] at hl'
    show q.next.1.accessors.length = q.next.1.elements.length
    rw [hk.1]
    have hn : q.next.1.accessors.length = q.accessors.length :=
      next_loop_accessors _ q (hI hl')
    rw [hn]
    exact hI hl'
  | fetch p_entity_id =>
    intro hl
    have hl' : q.can_change = false := hl
    show (q.fetch p_entity_id).accessors.length = q.elements.length
    rw [fetch_accessors_length q p_entity_id (hI hl')]
    exact hI hl'

theorem locked_run (ecs : ECS) (ops : List Operation) : ∀ q : DynamicQuery,
    (q.can_change = false → q.accessors.length = q.elements.length) →
    (run ecs ops q).can_change = false →
      (run ecs ops q).accessors.length = (run ecs ops q).elements.length := by
  induction ops with
  | nil => intro q hI; exact hI
  | cons op ops ih => intro q hI; exact ih _ (locked_step ecs op q hI)

/-- C22, as the code has it: in every state reached from a freshly constructed
query in which the query is locked (`prepare_world` has built the accessors and
`reset` has not been called since), `accessors` and `elements` have the same
length, so every position below `elements.size()` has its accessor. -/
theorem C22_accessors_parallel (ecs : ECS) (ops : List Operation)
    (hl : (run ecs ops DynamicQuery.fresh).can_change = false) :
    (run ecs ops DynamicQuery.fresh).accessors.length =
      (run ecs ops DynamicQuery.fresh).elements.length ∧
    ∀ i, i < (run ecs ops DynamicQuery.fresh).elements.length →
      ∃ a, (run ecs ops DynamicQuery.fresh).accessors[i]? = some a := by
  have h := locked_run ecs ops DynamicQuery.fresh (fun h => by cases h) hl
  refine ⟨h, ?_⟩
  intro i hi
  rw [← h] at hi
  exact ⟨_, List.getElem?_eq_getElem hi⟩

/-- C22 at the query that selects 10 and 11 and begins a cycle: two elements and
two accessors. -/
theorem C22_witness :
    (run registry [Operation.select_component 10 false, Operation.select_component 11 true,
      Operation.initiate_process world_B] DynamicQuery.fresh).accessors =
      [⟨10, false, none⟩, ⟨11, true, none⟩] ∧
    (run registry [Operation.select_component 10 false, Operation.select_component 11 true,
      Operation.initiate_process world_B] DynamicQuery.fresh).accessors.length =
    (run registry [Operation.select_component 10 false, Operation.select_component 11 true,
      Operation.initiate_process world_B] DynamicQuery.fresh).elements.length :=
  ⟨by decide,
    (C22_accessors_parallel registry [Operation.select_component 10 false,
      Operation.select_component 11 true, Operation.initiate_process world_B] (by decide)).1⟩

/-- C22 fails while the query is being built: after `select_component` of
component 10 there is one element and no accessor, the accessors being built by
`prepare_world`. -/
theorem C22_counterexample :
    (run registry [Operation.select_component 10 false] DynamicQuery.fresh).elements.length = 1 ∧
    (run registry [Operation.select_component 10 false] DynamicQuery.fresh).accessors.length = 0 := by
  decide

end godex
